import Mathlib

/-!
# Invernadero con núcleos: control node and actuator node

Shallow embedding of the two sketches of the repository:

* `src/prueba_3_corete/prueba_3_corete.cpp`: the central (sensing / decision) node,
  namespace `Central`;
* `src/actuadores/actuadores.cpp`: the actuator node, namespace `Actuadores`.

Conventions of the embedding.

* `float` readings are exact rationals (`ℚ`); `uint16_t` is `Fin 65536`; `int` is `Int`;
  a byte is `Fin 256`.
* Global variables of a sketch are the fields of one state record (`Central.Nodo`,
  `Actuadores.Placa`); a C++ function that writes globals is a function on that record.
* What the hardware and the libraries answer (RTC time, outcome of a radio send, how long
  the access point takes to accept the station, outcome of the Telegram request) is an
  explicit input, `Central.Entorno`.
* Loops that poll the hardware take a fuel argument and return `none` when the fuel runs
  out; `vTaskDelay` has no effect on the state and is left out.
* Reachability (`Central.Alcanzable`) takes an iteration of a task that returns as one
  step, with the frames that the receive callback handles inside it
  (`Central.taskESPNow_ciclo`); the two tasks are not interleaved inside an iteration.
* `serial` is the sequence of items printed on the serial port; `efectos` is a ghost
  sequence of the externally visible actions (SD append, radio send, alert, radio
  context changes), kept in program order so that orderings can be stated.
-/

namespace Invernadero

/-! ## Shared: hardware addresses and text formatting of the C library -/

/-- One octet. -/
abbrev Byte := Fin 256

/-- A 6-byte hardware address (`uint8_t mac[6]`). -/
structure MAC where
  b0 : Byte
  b1 : Byte
  b2 : Byte
  b3 : Byte
  b4 : Byte
  b5 : Byte
  deriving DecidableEq, Repr

/-- The bytes of an address in memory order. -/
def MAC.bytes (m : MAC) : List Byte := [m.b0, m.b1, m.b2, m.b3, m.b4, m.b5]

/-- Result of `memcmp(a, b, 6) == 0`: byte-wise comparison of the two addresses. -/
def memcmp6_eq0 (a b : MAC) : Bool :=
  a.b0 == b.b0 && a.b1 == b.b1 && a.b2 == b.b2 && a.b3 == b.b3 && a.b4 == b.b4 && a.b5 == b.b5

/-- Upper-case hexadecimal digit of a value below 16. -/
def hexChar (n : Nat) : Char :=
  if n < 10 then Char.ofNat (48 + n) else Char.ofNat (55 + n)

/-- Conversion `%02X` of one byte. -/
def hex02X (b : Byte) : String := String.mk [hexChar (b.val / 16), hexChar (b.val % 16)]

/-- Text written by `snprintf(macStr, sizeof(macStr), "%02X:%02X:%02X:%02X:%02X:%02X", ...)`
(17 characters, which fit the 18-byte buffer). -/
def fmtMAC (m : MAC) : String :=
  hex02X m.b0 ++ ":" ++ hex02X m.b1 ++ ":" ++ hex02X m.b2 ++ ":" ++
  hex02X m.b3 ++ ":" ++ hex02X m.b4 ++ ":" ++ hex02X m.b5

/-- The last `w` decimal digits of `n`, most significant first. -/
def digitosFijos : Nat → Nat → List Char
  | 0, _ => []
  | w + 1, n => digitosFijos w (n / 10) ++ [Nat.digitChar (n % 10)]

/-- Conversion `%0wd` of a non-negative integer: at least `w` digits, zero padded. -/
def printf_0d (w n : Nat) : String :=
  if n < 10 ^ w then String.mk (digitosFijos w n) else Nat.repr n

/-- Number of hundredths in `|q|` after adding half a hundredth and truncating
(the rounding step of `dtostrf`: `number += 0.5 / 10^prec`, then digit extraction). -/
def centesimas (q : ℚ) : Nat := (200 * q.num.natAbs + q.den) / (2 * q.den)

/-- Number of hundredths in `|q|` rounded to nearest, ties to even (the rounding of the
`%.2f` conversion of `printf`). -/
def centesimasPar (q : ℚ) : Nat :=
  let t := (100 * q.num.natAbs) / q.den
  let r := (100 * q.num.natAbs) % q.den
  if 2 * r > q.den ∨ (2 * r = q.den ∧ t % 2 = 1) then t + 1 else t

/-- Text of a sign and a number of hundredths: integer part, point, two digits. -/
def dosDecimales (neg : Bool) (h : Nat) : String :=
  (if neg then "-" else "") ++ Nat.repr (h / 100) ++ "." ++ String.mk (digitosFijos 2 (h % 100))

/-- Arduino `String(float value, 2)`, that is `dtostrf(value, 4, 2, buf)`: sign, magnitude
rounded half up to two decimals. Library code, modelled on exact numbers. -/
def String_float2 (q : ℚ) : String := dosDecimales (decide (q < 0)) (centesimas q)

/-- Conversion `%.2f` of `snprintf` on exact numbers. -/
def printf_2f (q : ℚ) : String := dosDecimales (decide (q < 0)) (centesimasPar q)

/-- Arduino `String::substring(left, right)` on a string of one-byte characters. -/
def substring (s : String) (left right : Nat) : String :=
  let l := if left > right then right else left
  let r := if left > right then left else right
  if l ≥ s.length then ""
  else
    let r := if r > s.length then s.length else r
    String.mk ((s.data.take r).drop l)

/-! ## Central node: data model (`prueba_3_corete.cpp`) -/

namespace Central

/-- Payload received from the sensors (`struct_message`). -/
structure struct_message where
  temperatura : ℚ
  humedad : ℚ
  luminosidad : Fin 65536
  vCO2 : ℚ
  humedadSuelo : ℚ
  deriving DecidableEq

/-- Payload sent to the actuators (`struct_message2`). -/
structure struct_message2 where
  eVentilador : Bool
  eBomba : Bool
  eLed : Bool
  eAlarma : Bool
  eCalor : Bool
  deriving DecidableEq, Repr

/-- Record written to the SD card (`struct SensorData`). -/
structure SensorData where
  Stemperatura : ℚ
  Shumedad : ℚ
  Sluminosidad : Fin 65536
  SvCO2 : ℚ
  ShumedadSuelo : ℚ
  deriving DecidableEq

/-- Value returned by `rtc.now()`. -/
structure DateTime where
  year : Nat
  month : Nat
  day : Nat
  hour : Nat
  minute : Nat
  second : Nat
  deriving DecidableEq, Repr

/-- SD card: whether it answers (`montada`), whether writes succeed (`escribible`), the
directories and the files with their contents. -/
structure SD where
  montada : Bool
  escribible : Bool
  dirs : String → Bool
  archivos : String → Option String

/-- State of the infrastructure (WiFi) link. `asociando k`: the station was started and
`k` more status polls answer "not connected" before the link is up; `inalcanzable`: the
station was started and the link never comes up. -/
inductive WiFiLink where
  | apagado
  | asociando (k : Nat)
  | inalcanzable
  | conectado
  deriving DecidableEq, Repr

/-- State of the radio: the ESP-NOW context and its registrations, and the WiFi link. -/
structure Radio where
  espnow : Bool
  peers : List MAC
  recvCb : Bool
  sendCb : Bool
  wifi : WiFiLink
  deriving DecidableEq

/-- One item printed on the serial port. -/
inductive Salida where
  | txt (s : String)
  | real (q : ℚ)
  | entero (n : Int)
  deriving DecidableEq

/-- Externally visible actions, in program order (ghost trace). -/
inductive Efecto where
  | registro (ruta linea : String)
  | envio (dest : MAC) (cmd : struct_message2) (ok : Bool)
  | alerta (chat texto : String) (ok : Bool)
  | peer (mac : MAC) (ok : Bool)
  | espnowDeinit
  | espnowInit (ok : Bool)
  | wifiDisconnect
  | wifiBegin
  deriving DecidableEq

/-- Answers of the hardware and of the libraries during one duty iteration. -/
structure Entorno where
  ahora : DateTime
  envioOk : Bool
  initOk : Bool
  retardoWiFi : Option Nat
  telegramOk : Bool

/-- Global variables of the central sketch. -/
structure Nodo where
  temp : ℚ
  hum : ℚ
  lum : Int
  CO2 : ℚ
  valHumsuelo : ℚ
  incomingReadings : struct_message
  readingsToSend : struct_message2
  peerInfo_addr : MAC
  macStr : String
  success : String
  useWiFi : Bool
  adicion_peers : Bool
  radio : Radio
  sd : SD
  serial : List Salida
  efectos : List Efecto

/-- Address of the sensor board. -/
def macSensores : MAC := ⟨0xE0, 0x5A, 0x1B, 0x95, 0x25, 0xD4⟩

/-- Address of the actuator board. -/
def macActuadores : MAC := ⟨0x88, 0x13, 0xBF, 0x07, 0xF7, 0xC0⟩

/-- Telegram chat that receives the alerts. -/
def CHAT_ID : String := "8010625386"

/-- The sensor snapshot held in the globals `temp, hum, lum, CO2, valHumsuelo`. -/
def Nodo.snapshot (s : Nodo) : ℚ × ℚ × Int × ℚ × ℚ := (s.temp, s.hum, s.lum, s.CO2, s.valHumsuelo)

/-- Serial output of one item (`Serial.print` / `Serial.println`). -/
def Nodo.println (s : Nodo) (x : Salida) : Nodo := { s with serial := s.serial ++ [x] }

/-- Appends one action to the ghost trace. -/
def Nodo.efecto (s : Nodo) (x : Efecto) : Nodo := { s with efectos := s.efectos ++ [x] }

/-! ### ESP-NOW and WiFi library calls -/

/-- Outcome of `esp_now_add_peer`: succeeds when the context is up, the address is not yet
registered and the peer table (20 entries) is not full. -/
def esp_now_add_peer (mac : MAC) (r : Radio) : Bool × Radio :=
  if r.espnow && !(r.peers.contains mac) && decide (r.peers.length < 20) then
    (true, { r with peers := r.peers ++ [mac] })
  else (false, r)

/-- Call `esp_now_deinit`: the context, its peers and its callbacks are gone. -/
def esp_now_deinit (r : Radio) : Radio :=
  { r with espnow := false, peers := [], recvCb := false, sendCb := false }

/-- Call `esp_now_init`, with the outcome given by the environment. -/
def esp_now_init (ok : Bool) (r : Radio) : Radio :=
  if ok then { r with espnow := true } else r

/-- Call `esp_now_register_recv_cb(OnDataRecv)`. -/
def esp_now_register_recv_cb (r : Radio) : Radio :=
  if r.espnow then { r with recvCb := true } else r

/-- Call `esp_now_register_send_cb(OnDataSent)`. -/
def esp_now_register_send_cb (r : Radio) : Radio :=
  if r.espnow then { r with sendCb := true } else r

/-- Outcome of `esp_now_send`: accepted when the context is up, the destination is a
registered peer and the link layer takes the frame. -/
def esp_now_send (linkOk : Bool) (dest : MAC) (r : Radio) : Bool :=
  r.espnow && r.peers.contains dest && linkOk

/-- Call `WiFi.begin(ssid, password)`. -/
def WiFi_begin (retardo : Option Nat) (r : Radio) : Radio :=
  match retardo with
  | none => { r with wifi := WiFiLink.inalcanzable }
  | some k => { r with wifi := WiFiLink.asociando k }

/-- One evaluation of `WiFi.status() == WL_CONNECTED`, and the link afterwards. -/
def WiFi_status (r : Radio) : Bool × Radio :=
  match r.wifi with
  | WiFiLink.conectado => (true, r)
  | WiFiLink.asociando 0 => (true, { r with wifi := WiFiLink.conectado })
  | WiFiLink.asociando (k + 1) => (false, { r with wifi := WiFiLink.asociando k })
  | WiFiLink.apagado => (false, r)
  | WiFiLink.inalcanzable => (false, r)

/-- Call `WiFi.disconnect(true)`. -/
def WiFi_disconnect (r : Radio) : Radio := { r with wifi := WiFiLink.apagado }

/-! ### Peer registration, reception, decision rules, alert -/

/-- Function `addPeer(uint8_t *mac)`. Of `peerInfo` only the address is kept; `channel` and
`encrypt` are constants. -/
def addPeer (mac : MAC) (s : Nodo) : Nodo :=
  let s := { s with peerInfo_addr := mac }
  let res := esp_now_add_peer s.peerInfo_addr s.radio
  let s := ({ s with radio := res.2 }).efecto (Efecto.peer mac res.1)
  if res.1 != true then
    s.println (Salida.txt "Fallo al agregar peer")
  else
    let s := s.println (Salida.txt "Peer agregado con éxito")
    let s := { s with macStr := fmtMAC mac }
    s.println (Salida.txt s.macStr)

/-- Callback `OnDataRecv(info, incomingData, len)` of the central node. `src` is
`info->src_addr`; `incomingData` is the payload read as a `struct_message` (the code copies
`sizeof(incomingReadings)` bytes whatever `len` is). -/
def OnDataRecv (src : MAC) (incomingData : struct_message) (s : Nodo) : Nodo :=
  let s := { s with incomingReadings := incomingData }
  let s := { s with macStr := fmtMAC src }
  if memcmp6_eq0 src macSensores then
    let s := s.println (Salida.txt "Temperatura: ")
    let s := s.println (Salida.real s.incomingReadings.temperatura)
    let s := { s with temp := s.incomingReadings.temperatura }
    let s := s.println (Salida.txt "Humedad: ")
    let s := s.println (Salida.real s.incomingReadings.humedad)
    let s := { s with hum := s.incomingReadings.humedad }
    let s := s.println (Salida.txt "Luz: ")
    let s := s.println (Salida.entero s.incomingReadings.luminosidad.val)
    let s := { s with lum := (s.incomingReadings.luminosidad.val : Int) }
    let s := s.println (Salida.txt "CO2: ")
    let s := s.println (Salida.real s.incomingReadings.vCO2)
    let s := { s with CO2 := s.incomingReadings.vCO2 }
    let s := s.println (Salida.txt "Humedad Suelo: ")
    let s := s.println (Salida.real s.incomingReadings.humedadSuelo)
    { s with valHumsuelo := s.incomingReadings.humedadSuelo }
  else
    s.println (Salida.txt "MAC desconocida")

/-- Delivery of a frame by the radio: the callback runs only while the ESP-NOW context is up
and `OnDataRecv` is registered. -/
def recibir (src : MAC) (incomingData : struct_message) (s : Nodo) : Nodo :=
  if s.radio.espnow && s.radio.recvCb then OnDataRecv src incomingData s else s

/-- Function `variablesEnvio()`. -/
def variablesEnvio (s : Nodo) : Nodo :=
  let s := s.println (Salida.txt "condicones para enviar")
  let s :=
    if s.temp > 28 ∨ s.hum > 60 ∨ s.CO2 > 1800 then
      { s with readingsToSend := { s.readingsToSend with eVentilador := true } }
    else { s with readingsToSend := { s.readingsToSend with eVentilador := false } }
  let s :=
    if s.temp < 18 then
      { s with readingsToSend := { s.readingsToSend with eCalor := true } }
    else { s with readingsToSend := { s.readingsToSend with eCalor := false } }
  let s :=
    if s.lum > 3500 then
      { s with readingsToSend := { s.readingsToSend with eAlarma := true } }
    else { s with readingsToSend := { s.readingsToSend with eAlarma := false } }
  let s :=
    if s.lum < 2500 then
      { s with readingsToSend := { s.readingsToSend with eLed := true } }
    else { s with readingsToSend := { s.readingsToSend with eLed := false } }
  if s.valHumsuelo < 60 then
    { s with readingsToSend := { s.readingsToSend with eBomba := true } }
  else { s with readingsToSend := { s.readingsToSend with eBomba := false } }

/-- Callback `OnDataSent(mac, status)`; `status` is `status == ESP_NOW_SEND_SUCCESS`. -/
def OnDataSent (status : Bool) (s : Nodo) : Nodo :=
  let s := s.println (Salida.txt "enviooooooooooo")
  let s := s.println (Salida.txt "\r\nEstado del envío:\t")
  let s := s.println (Salida.txt (if status then "Éxito" else "Fallo"))
  { s with success := if status then "Éxito :)" else "Fallo :(" }

/-- Condition of the `if` of `generacionAlarma` (line 249). -/
def generacionAlarma_cond (s : Nodo) : Bool :=
  decide (s.temp > 28 ∨ s.temp < 18 ∨ s.hum > 60 ∨ s.lum > 3500 ∨ s.lum < 2500 ∨
    s.CO2 ≥ 1800 ∨ s.valHumsuelo < 60)

/-- Condition of the `if` of `switchToWiFi` (line 414). -/
def switchToWiFi_cond (s : Nodo) : Bool :=
  decide (s.temp > 28 ∨ s.temp < 18 ∨ s.hum > 60 ∨ s.lum > 3500 ∨ s.lum < 2500 ∨
    s.CO2 ≥ 1800 ∨ s.valHumsuelo < 60)

/-- Conversion `%u` of an `int` argument (32-bit unsigned reading of the value). -/
def printf_u (n : Int) : String := Nat.repr (n % 4294967296).toNat

/-- Text built by the `snprintf` of `generacionAlarma` from the readings passed to it. -/
def textoAlarma (temp hum : ℚ) (lum : Int) (CO2 : ℚ) : String :=
  "‼️ ¡¡LÍMITE DE VARIABLES SUPERADO!!\n" ++
  "#INVERNADERO\n" ++
  "🌡 Temp: " ++ printf_2f temp ++ " °C\n" ++
  "💧 Humedad: " ++ printf_2f hum ++ " %\n" ++
  "☀️ Luz: " ++ printf_u lum ++ "\n" ++
  "🌫 CO₂: " ++ printf_2f CO2 ++ " PPM\n" ++
  "#FIN"

/-- Function `generacionAlarma()`; `telegramOk` is the outcome of `bot.sendMessage`. -/
def generacionAlarma (telegramOk : Bool) (s : Nodo) : Nodo :=
  let s := s.println (Salida.txt "inicio")
  if generacionAlarma_cond s then
    let s := s.println (Salida.txt "inicio condicional")
    let msg := textoAlarma s.temp s.hum s.lum s.CO2
    let s := s.println (Salida.txt "despues del formateo de datos")
    let s := s.println (Salida.txt msg)
    let s := s.efecto (Efecto.alerta CHAT_ID msg telegramOk)
    s.println (Salida.txt "despues de enviar el mensaje a telegram")
  else s

/-! ### Timestamp, paths and the SD log -/

/-- Function `getTimestampFromRTC()` for the time `now` read from the RTC: the `snprintf`
with `"%04d-%02d-%02d %02d:%02d:%02d"` into `char buf[20]` (at most 19 characters kept). -/
def getTimestampFromRTC (now : DateTime) : String :=
  String.mk ((printf_0d 4 now.year ++ "-" ++ printf_0d 2 now.month ++ "-" ++
    printf_0d 2 now.day ++ " " ++ printf_0d 2 now.hour ++ ":" ++ printf_0d 2 now.minute ++
    ":" ++ printf_0d 2 now.second).data.take 19)

/-- Function `getFolderPath(timestamp)`. -/
def getFolderPath (timestamp : String) : String :=
  let date := substring timestamp 0 10
  let hour := substring timestamp 11 13
  "/" ++ date ++ "/" ++ hour

/-- Function `getFilePath(timestamp)`. -/
def getFilePath (timestamp : String) : String :=
  getFolderPath timestamp ++ "/data.csv"

/-- Call `SD.exists(path)`. -/
def SD.existe (sd : SD) (path : String) : Bool :=
  sd.montada && (sd.dirs path || (sd.archivos path).isSome)

/-- Call `SD.mkdir(path)`. -/
def SD.mkdir (sd : SD) (path : String) : SD :=
  if sd.montada then { sd with dirs := fun x => if x = path then true else sd.dirs x } else sd

/-- Call `SD.open(path, FILE_APPEND)`: `none` when the file cannot be opened, otherwise the
card with the file created if it was absent. -/
def SD.openAppend (sd : SD) (path : String) : Option SD :=
  if sd.montada then
    match sd.archivos path with
    | some _ => some sd
    | none => some { sd with archivos := fun x => if x = path then some "" else sd.archivos x }
  else none

/-- Call `file.size()` for the open file at `path`. -/
def SD.size (sd : SD) (path : String) : Nat := ((sd.archivos path).getD "").utf8ByteSize

/-- Call `file.println(text)` on the file opened for appending at `path`: number of bytes
written (0 on failure) and the card afterwards. -/
def SD.filePrintln (sd : SD) (path text : String) : Nat × SD :=
  if sd.escribible then
    ((text ++ "\r\n").utf8ByteSize,
     { sd with archivos := fun x =>
        if x = path then some ((sd.archivos path).getD "" ++ text ++ "\r\n") else sd.archivos x })
  else (0, sd)

/-- Body of the `for` loop of `ensureDirectoriesExist`, run over the indices `is`. -/
def ensureDirectoriesExist_for (folderPath : String) : List Nat → SD → SD
  | [], sd => sd
  | i :: is, sd =>
    let sd :=
      if folderPath.data.get? i = some '/' then
        let current := substring folderPath 0 i
        if !sd.existe current then sd.mkdir current else sd
      else sd
    ensureDirectoriesExist_for folderPath is sd

/-- Function `ensureDirectoriesExist(folderPath)`. -/
def ensureDirectoriesExist (folderPath : String) (sd : SD) : SD :=
  let sd := ensureDirectoriesExist_for folderPath (List.range' 1 (folderPath.length - 1)) sd
  if !sd.existe folderPath then sd.mkdir folderPath else sd

/-- Header line of a log file. -/
def encabezado : String := "timestamp,nodeId,rssi,temp,hum,light,co2ppm,soilMoisture"

/-- The CSV line built by `logSensorData`. -/
def csvLine (timestamp nodeId : String) (rssi : Int) (data : SensorData) : String :=
  timestamp ++ "," ++ nodeId ++ "," ++ toString rssi ++ "," ++
  String_float2 data.Stemperatura ++ "," ++
  String_float2 data.Shumedad ++ "," ++
  Nat.repr data.Sluminosidad.val ++ "," ++
  String_float2 data.SvCO2 ++ "," ++
  String_float2 data.ShumedadSuelo

/-- Function `logSensorData`. The body of the source uses `nodeId` and `rssi`, which it does
not declare; they are arguments here, and the call in `taskESPNow` passes `"NODE1"` and
`-60` for them. -/
def logSensorData (timestamp nodeId : String) (rssi : Int) (data : SensorData) (s : Nodo) :
    Bool × Nodo :=
  let folderPath := getFolderPath timestamp
  let filePath := getFilePath timestamp
  let sd := ensureDirectoriesExist folderPath s.sd
  match sd.openAppend filePath with
  | none =>
    (false, ({ s with sd := sd }).println (Salida.txt "❌ No se pudo abrir el archivo para escritura."))
  | some sd =>
    let sd := if sd.size filePath == 0 then (sd.filePrintln filePath encabezado).2 else sd
    let linea := csvLine timestamp nodeId rssi data
    let res := sd.filePrintln filePath linea
    if res.1 == 0 then
      (false, ({ s with sd := res.2 }).println (Salida.txt "❌ Error al escribir en el archivo."))
    else
      (true, ({ s with sd := res.2 }).efecto (Efecto.registro filePath linea))

/-! ### Mode switching and the two duty tasks -/

/-- Loop `while (WiFi.status() != WL_CONNECTED) ...` whose body prints `"conectando..."`
(and, in `switchToWiFi`, waits); `none` when the fuel is used up. -/
def whileNoConectado : Nat → Nodo → Option Nodo
  | 0, _ => none
  | fuel + 1, s =>
    let st := WiFi_status s.radio
    let s := { s with radio := st.2 }
    if st.1 != true then whileNoConectado fuel (s.println (Salida.txt "conectando..."))
    else some s

/-- The branch of `switchToWiFi` taken when its condition holds (lines 415 to 423). -/
def switchToWiFi_then (fuel : Nat) (e : Entorno) (s : Nodo) : Option Nodo :=
  let s := ({ s with radio := esp_now_deinit s.radio }).efecto Efecto.espnowDeinit
  let s := ({ s with radio := WiFi_disconnect s.radio }).efecto Efecto.wifiDisconnect
  let s := { s with adicion_peers := false }
  let s := ({ s with radio := WiFi_begin e.retardoWiFi s.radio }).efecto Efecto.wifiBegin
  whileNoConectado fuel s

/-- Function `switchToWiFi()`. -/
def switchToWiFi (fuel : Nat) (e : Entorno) (s : Nodo) : Option Nodo :=
  if switchToWiFi_cond s then switchToWiFi_then fuel e s
  else some { s with useWiFi := false }

/-- Function `switchToESPNow()`. The call `WiFi.mode(WIFI_STA)` has no counterpart in the
state of the model. -/
def switchToESPNow (e : Entorno) (s : Nodo) : Nodo :=
  let s := ({ s with radio := WiFi_disconnect s.radio }).efecto Efecto.wifiDisconnect
  let s := ({ s with radio := esp_now_init e.initOk s.radio }).efecto (Efecto.espnowInit e.initOk)
  if e.initOk != true then s.println (Salida.txt "Error inicializando ESP-NOW")
  else s.println (Salida.txt "inicio correctamente")

/-- Narrowing of the `int` global `lum` to the `uint16_t` field of `SensorData`. -/
def aUint16 (n : Int) : Fin 65536 := ⟨(n % 65536).toNat, by omega⟩

/-- Lines 446 to 449 of `taskESPNow`: registration of the two peers and of the receive
callback. -/
def taskESPNow_registro (s : Nodo) : Nodo :=
  let s := addPeer macSensores s
  let s := addPeer macActuadores s
  { s with radio := esp_now_register_recv_cb s.radio }

/-- Lines 452 to 454 of `taskESPNow`: the log record of the current snapshot. The call in
the source has a fifth argument, `1`, that the definition of `logSensorData` has no
parameter for. -/
def taskESPNow_log (e : Entorno) (s : Nodo) : Nodo :=
  let data : SensorData := ⟨s.temp, s.hum, aUint16 s.lum, s.CO2, s.valHumsuelo⟩
  let timestamp := getTimestampFromRTC e.ahora
  (logSensorData timestamp "NODE1" (-60) data s).2

/-- Lines 457 to 464 of `taskESPNow`: dispatch of `readingsToSend` to the actuators. -/
def taskESPNow_envio (e : Entorno) (s : Nodo) : Nodo :=
  let s := { s with radio := esp_now_register_send_cb s.radio }
  let result := esp_now_send e.envioOk macActuadores s.radio
  let s := s.efecto (Efecto.envio macActuadores s.readingsToSend result)
  if result then s.println (Salida.txt "Datos enviados exitosamente")
  else s.println (Salida.txt "Error al enviar los datos")

/-- The statement `if (adicion_peers == false) ...` of `taskESPNow` (lines 445 to 466). -/
def taskESPNow_bloque (e : Entorno) (s : Nodo) : Nodo :=
  if s.adicion_peers == false then
    let s := taskESPNow_registro s
    let s := taskESPNow_log e s
    let s := variablesEnvio s
    let s := s.println (Salida.txt "despues de funcion envio")
    let s := taskESPNow_envio e s
    { s with adicion_peers := true }
  else s

/-- States of the node during one iteration of the loop of `taskESPNow`, in order: after the
`if (adicion_peers == false)` statement, after `useWiFi = true`, and after `switchToWiFi()`
has returned (absent when it does not return within the fuel). Empty when `useWiFi` is set
on entry, where the iteration does nothing. -/
def taskESPNow_pasos (fuel : Nat) (e : Entorno) (s : Nodo) : List Nodo :=
  if !s.useWiFi then
    let s1 := taskESPNow_bloque e s
    let s2 := { s1 with useWiFi := true }
    s1 :: s2 :: (switchToWiFi fuel e s2).toList
  else []

/-- One iteration of the loop of `taskESPNow`. -/
def taskESPNow_iter (fuel : Nat) (e : Entorno) (s : Nodo) : Option Nodo :=
  if !s.useWiFi then
    let s := taskESPNow_bloque e s
    let s := { s with useWiFi := true }
    switchToWiFi fuel e s
  else some s

/-- One iteration of the loop of `taskWiFi`. -/
def taskWiFi_iter (fuel : Nat) (e : Entorno) (s : Nodo) : Option Nodo :=
  if s.useWiFi == true then
    let st := WiFi_status s.radio
    let s := { s with radio := st.2 }
    let r :=
      if st.1 != true then switchToWiFi fuel e (s.println (Salida.txt "conectando..."))
      else some (s.println (Salida.txt "conectado"))
    match r with
    | none => none
    | some s =>
      match whileNoConectado fuel s with
      | none => none
      | some s =>
        let s := generacionAlarma e.telegramOk s
        let s := { s with useWiFi := false }
        some (switchToESPNow e s)
  else some s

/-- Answers of the hardware during `setup`. -/
structure EntornoSetup where
  rtcBegin : Bool
  rtcLostPower : Bool
  initOk1 : Bool
  initOk2 : Bool

/-- Function `initSD()`; `SD.begin` succeeds when the card answers. -/
def initSD (s : Nodo) : Bool × Nodo :=
  if !s.sd.montada then
    (false, s.println (Salida.txt "❌ Falló la inicialización de la tarjeta SD"))
  else (true, s.println (Salida.txt "✅ Tarjeta SD inicializada correctamente"))

/-- Function `initRTC()`; the time held by the RTC is an input of the model, so `rtc.adjust`
leaves no trace in the state. -/
def initRTC (e : EntornoSetup) (s : Nodo) : Bool × Nodo :=
  if !e.rtcBegin then (false, s.println (Salida.txt "❌ No se pudo iniciar el RTC"))
  else if e.rtcLostPower then
    (true, s.println
      (Salida.txt "⚠️ RTC sin hora válida, se establece con hora de compilación"))
  else (true, s)

/-- Function `setup()` of the central node: the state it leaves and whether it reached the
creation of the two tasks (it returns before when the second `esp_now_init` fails). -/
def setup (e : EntornoSetup) (s : Nodo) : Bool × Nodo :=
  let s := (initRTC e s).2
  let s := (initSD s).2
  let s := ({ s with radio := esp_now_init e.initOk1 s.radio }).efecto
    (Efecto.espnowInit e.initOk1)
  let s := ({ s with radio := esp_now_init e.initOk2 s.radio }).efecto
    (Efecto.espnowInit e.initOk2)
  if e.initOk2 != true then (false, s.println (Salida.txt "Error inicializando ESP-NOW"))
  else (true, s)

/-- The alerts of a ghost trace, in order. -/
def alertas (l : List Efecto) : List (String × String × Bool) :=
  l.filterMap fun x =>
    match x with
    | Efecto.alerta chat texto ok => some (chat, texto, ok)
    | _ => none

/-! ### Spec-side definitions and sample states -/

/-- Spec-side definition (spec §4.2): the command of the threshold rules for a snapshot. -/
def reglas (temp hum : ℚ) (lum : Int) (co2 soil : ℚ) : struct_message2 :=
  { eVentilador := decide (temp > 28 ∨ hum > 60 ∨ co2 > 1800)
    eBomba := decide (soil < 60)
    eLed := decide (lum < 2500)
    eAlarma := decide (lum > 3500)
    eCalor := decide (temp < 18) }

/-- Spec-side definition (spec §4.2): the `alertWorthy` predicate of a snapshot. -/
def alertWorthy (temp hum : ℚ) (lum : Int) (co2 soil : ℚ) : Bool :=
  decide (temp > 28 ∨ temp < 18 ∨ hum > 60 ∨ lum > 3500 ∨ lum < 2500 ∨ co2 ≥ 1800 ∨ soil < 60)

/-- The `alertWorthy` predicate on the snapshot held by a node. -/
def Nodo.alertWorthy (s : Nodo) : Bool :=
  Central.alertWorthy s.temp s.hum s.lum s.CO2 s.valHumsuelo

/-- The part of the state that registration, logging, the decision rules and the dispatch
never write: the snapshot, the mode flag, whether the ESP-NOW context is up, the WiFi link
and the receive buffer. -/
def Nodo.marco (s : Nodo) : (ℚ × ℚ × Int × ℚ × ℚ) × Bool × Bool × WiFiLink × struct_message :=
  (s.snapshot, s.useWiFi, s.radio.espnow, s.radio.wifi, s.incomingReadings)

/-- An empty, working SD card. -/
def sdVacia : SD :=
  { montada := true, escribible := true, dirs := fun _ => false, archivos := fun _ => none }

/-- The globals with their initialisers, and the ESP-NOW context up as `setup` leaves it. -/
def inicial : Nodo :=
  { temp := 0, hum := 0, lum := 0, CO2 := 0, valHumsuelo := 0
    incomingReadings := ⟨0, 0, 0, 0, 0⟩
    readingsToSend := ⟨false, false, false, false, false⟩
    peerInfo_addr := ⟨0, 0, 0, 0, 0, 0⟩
    macStr := ""
    success := ""
    useWiFi := false
    adicion_peers := false
    radio := { espnow := true, peers := [], recvCb := false, sendCb := false,
               wifi := WiFiLink.apagado }
    sd := sdVacia
    serial := []
    efectos := [] }

/-- A node holding a snapshot with every reading in range. -/
def enRango : Nodo :=
  { inicial with temp := 22, hum := 50, lum := 3000, CO2 := 400, valHumsuelo := 70 }

/-- A node holding a snapshot whose only breach is the temperature, 30. -/
def caliente : Nodo := { enRango with temp := 30 }

/-- An environment: 5 March 2024, 14:22:10, every library call succeeds and the access point
accepts the station after two polls. -/
def entornoBueno : Entorno :=
  { ahora := ⟨2024, 3, 5, 14, 22, 10⟩, envioOk := true, initOk := true,
    retardoWiFi := some 2, telegramOk := true }

/-- The node at power-on, before `setup`: the globals with their initialisers, the radio
down, and the SD card found in the slot. -/
def encendido (sd : SD) : Nodo :=
  { inicial with
    radio := { espnow := false, peers := [], recvCb := false, sendCb := false,
               wifi := WiFiLink.apagado }
    sd := sd }

/-- A received frame: sender address and payload. -/
abbrev Trama := MAC × struct_message

/-- Delivery of a sequence of frames, oldest first. -/
def recibirTodos (frames : List Trama) (s : Nodo) : Nodo :=
  frames.foldl (fun st f => recibir f.1 f.2 st) s

/-- The frames that reach the radio in the course of one iteration of `taskESPNow`, by the
point of the iteration at which the callback runs: during the wait at line 443, after the
callback is registered at line 449, after the log record, after `variablesEnvio`, during
the wait at line 468, after `useWiFi = true` at line 470, and after the test of
`switchToWiFi` at line 414, before `esp_now_deinit`. -/
structure Recepciones where
  l443 : List Trama
  l449 : List Trama
  l454 : List Trama
  l456 : List Trama
  l468 : List Trama
  l470 : List Trama
  l414 : List Trama

/-- No frame at all during the iteration. -/
def Recepciones.ninguna : Recepciones := ⟨[], [], [], [], [], [], []⟩

/-- The statement `if (adicion_peers == false) ...` of `taskESPNow` (lines 445 to 466), with
the frames delivered between its statements. -/
def taskESPNow_bloque_rx (e : Entorno) (rx : Recepciones) (s : Nodo) : Nodo :=
  if s.adicion_peers == false then
    let s := taskESPNow_registro s
    let s := recibirTodos rx.l449 s
    let s := taskESPNow_log e s
    let s := recibirTodos rx.l454 s
    let s := variablesEnvio s
    let s := s.println (Salida.txt "despues de funcion envio")
    let s := recibirTodos rx.l456 s
    let s := taskESPNow_envio e s
    { s with adicion_peers := true }
  else s

/-- One iteration of the loop of `taskESPNow` with the frames delivered while it runs and
while it waits. With no frame it is `taskESPNow_iter`. -/
def taskESPNow_ciclo (fuel : Nat) (e : Entorno) (rx : Recepciones) (s : Nodo) : Option Nodo :=
  if !s.useWiFi then
    let s := recibirTodos rx.l443 s
    let s := taskESPNow_bloque_rx e rx s
    let s := recibirTodos rx.l468 s
    let s := { s with useWiFi := true }
    let s := recibirTodos rx.l470 s
    if switchToWiFi_cond s then switchToWiFi_then fuel e (recibirTodos rx.l414 s)
    else some { s with useWiFi := false }
  else some s

/-- States reachable from `setup` by iterations of `taskESPNow` and of `taskWiFi` that
return, in any order and with any answers of the environment. Frames are delivered to the
receive callback inside an iteration of `taskESPNow` (`taskESPNow_ciclo`) and between
iterations (the waits at lines 473 and 497); `recibir` drops them while the ESP-NOW context
is down or no callback is registered; in WiFi mode the context is down, so `taskWiFi` has
no delivery point of its own. An iteration of a task is one step of the relation: a
suspension of one task inside an iteration of the other (such as `taskESPNow` running
between lines 494 and 431 of `taskWiFi`) is not a step of it. -/
inductive Alcanzable : Nodo → Prop where
  | arranque (e : EntornoSetup) (sd : SD) (h : (setup e (encendido sd)).1 = true) :
      Alcanzable (setup e (encendido sd)).2
  | cicloESPNow (fuel : Nat) (e : Entorno) (rx : Recepciones) (s t : Nodo) (h : Alcanzable s)
      (hs : taskESPNow_ciclo fuel e rx s = some t) : Alcanzable t
  | cicloWiFi (fuel : Nat) (e : Entorno) (s t : Nodo) (h : Alcanzable s)
      (hs : taskWiFi_iter fuel e s = some t) : Alcanzable t
  | recepcion (src : MAC) (m : struct_message) (s : Nodo) (h : Alcanzable s) :
      Alcanzable (recibir src m s)

/-- Coherence of the registration flag with the peer table: while the flag is clear nothing
is registered; once it is set the table holds the two peers, each once, if the ESP-NOW
context is up and is empty if it is down; in WiFi mode the flag is clear, the context is
down and the link is up. -/
def Nodo.registroCoherente (s : Nodo) : Prop :=
  (s.adicion_peers = false → s.radio.peers = []) ∧
  (s.adicion_peers = true →
    s.radio.peers = if s.radio.espnow then [macSensores, macActuadores] else []) ∧
  (s.useWiFi = true →
    s.adicion_peers = false ∧ s.radio.espnow = false ∧ s.radio.wifi = WiFiLink.conectado)

/-- The calls of `esp_now_add_peer` recorded in a ghost trace, in order. -/
def registros (l : List Efecto) : List (MAC × Bool) :=
  l.filterMap fun x =>
    match x with
    | Efecto.peer mac ok => some (mac, ok)
    | _ => none

/-- One step of `desdeContexto`: an initialisation or a teardown of the ESP-NOW context
starts the suffix afresh, any other action is appended to it. -/
def desdeContexto_paso (acc : List Efecto) (x : Efecto) : List Efecto :=
  match x with
  | Efecto.espnowInit _ => []
  | Efecto.espnowDeinit => []
  | _ => acc ++ [x]

/-- Spec-side definition: the part of a ghost trace that follows the last initialisation or
teardown of the ESP-NOW context (the whole trace if there is none). -/
def desdeContexto (l : List Efecto) : List Efecto := l.foldl desdeContexto_paso []

/-- Spec-side definition: the calls of `esp_now_add_peer` since the last initialisation or
teardown of the ESP-NOW context are none while the flag `adicion_peers` is clear, and one
for the sensor peer then one for the actuator peer once it is set, each with the outcome
"the context is up". -/
def Nodo.registroUnico (s : Nodo) : Prop :=
  registros (desdeContexto s.efectos) =
    if s.adicion_peers then [(macSensores, s.radio.espnow), (macActuadores, s.radio.espnow)]
    else []

/-- Spec-side definition: some actuator output of a command is on. -/
def algunActuador (c : struct_message2) : Bool :=
  c.eVentilador || c.eBomba || c.eLed || c.eAlarma || c.eCalor

/-- A start-up in which every device answers. -/
def entornoSetupBueno : EntornoSetup :=
  { rtcBegin := true, rtcLostPower := false, initOk1 := true, initOk2 := true }

/-- The node when `setup` has created the two tasks, on an empty working card. -/
def trasSetup : Nodo := (setup entornoSetupBueno (encendido sdVacia)).2

/-- The state on which `switchToWiFi` is called in the first iteration of `taskESPNow` from
the sample state with temperature 30. -/
def calienteEnLaPrueba : Nodo := { taskESPNow_bloque entornoBueno caliente with useWiFi := true }

end Central

/-! ## Actuator node (`actuadores.cpp`) -/

namespace Actuadores

/-- Payload received from the central node (`struct_message`). -/
structure struct_message where
  eVentilador : Bool
  eBomba : Bool
  eLed : Bool
  eAlarma : Bool
  eCalor : Bool
  deriving DecidableEq, Repr

/-- One item printed on the serial port. -/
inductive Salida where
  | txt (s : String)
  | bool (b : Bool)
  deriving DecidableEq, Repr

/-- Global variables of the actuator sketch. -/
structure Placa where
  Ventilador : Bool
  Bomba : Bool
  Led : Bool
  Alarma : Bool
  Calor : Bool
  incomingReadings : struct_message
  macStr : String
  serial : List Salida
  deriving DecidableEq, Repr

/-- Address of the central node. -/
def macNucleoC : MAC := ⟨0xC8, 0xF0, 0x9E, 0x7B, 0x78, 0x88⟩

/-- Serial output of one item. -/
def Placa.println (s : Placa) (x : Salida) : Placa := { s with serial := s.serial ++ [x] }

/-- The five outputs `(Ventilador, Bomba, Led, Alarma, Calor)`. -/
def Placa.salidas (s : Placa) : Bool × Bool × Bool × Bool × Bool :=
  (s.Ventilador, s.Bomba, s.Led, s.Alarma, s.Calor)

/-- Callback `OnDataRecv(info, incomingData, len)` of the actuator node. -/
def OnDataRecv (src : MAC) (incomingData : struct_message) (s : Placa) : Placa :=
  let s := { s with incomingReadings := incomingData }
  let s := { s with macStr := fmtMAC src }
  if memcmp6_eq0 src macNucleoC then
    let s := s.println (Salida.txt "Ventilador encendido: ")
    let s := s.println (Salida.bool s.incomingReadings.eVentilador)
    let s := { s with Ventilador := s.incomingReadings.eVentilador }
    let s := s.println (Salida.txt "Bomba encendida: ")
    let s := s.println (Salida.bool s.incomingReadings.eBomba)
    let s := { s with Bomba := s.incomingReadings.eBomba }
    let s := s.println (Salida.txt "Led encendido: ")
    let s := s.println (Salida.bool s.incomingReadings.eLed)
    let s := { s with Led := s.incomingReadings.eLed }
    let s := s.println (Salida.txt "Alarma de fuego encendida: ")
    let s := s.println (Salida.bool s.incomingReadings.eAlarma)
    let s := { s with Alarma := s.incomingReadings.eAlarma }
    let s := s.println (Salida.txt "Aire acondicionado encendido: ")
    let s := s.println (Salida.bool s.incomingReadings.eCalor)
    { s with Calor := s.incomingReadings.eCalor }
  else
    s.println (Salida.txt "MAC desconocida")

/-- The five fields of a command, in the order of the outputs. -/
def struct_message.campos (m : struct_message) : Bool × Bool × Bool × Bool × Bool :=
  (m.eVentilador, m.eBomba, m.eLed, m.eAlarma, m.eCalor)

/-- The board after a sequence of received frames (sender, payload), oldest first. -/
def recibirTodos (frames : List (MAC × struct_message)) (s : Placa) : Placa :=
  frames.foldl (fun st f => OnDataRecv f.1 f.2 st) s

/-- The payload of the last frame of a sequence whose sender is the central node. -/
def ultimoAceptado (frames : List (MAC × struct_message)) : Option struct_message :=
  ((frames.filter (fun f => memcmp6_eq0 f.1 macNucleoC)).getLast?).map (fun f => f.2)

end Actuadores

/-! ## Theorems -/

/-- The byte-wise comparison decides equality of addresses. -/
theorem memcmp6_eq0_iff (a b : MAC) : memcmp6_eq0 a b = true ↔ a = b := by
  cases a; cases b
  simp [memcmp6_eq0, and_assoc]

/-- An address is determined by its six bytes. -/
theorem MAC_bytes_inj (a b : MAC) : a.bytes = b.bytes ↔ a = b := by
  cases a; cases b
  simp [MAC.bytes]

/-- The fixed-width digits of a number are `w` characters. -/
theorem digitosFijos_length (w n : Nat) : (digitosFijos w n).length = w := by
  induction w generalizing n with
  | zero => rfl
  | succ w ih => simp [digitosFijos, ih]

/-- A number that fits its width is printed on exactly `w` characters. -/
theorem printf_0d_length (w n : Nat) (h : n < 10 ^ w) : (printf_0d w n).length = w := by
  unfold printf_0d
  rw [if_pos h]
  exact digitosFijos_length w n

/-- The two `substring` calls of `getFolderPath` on a timestamp made of a 10-character date, a space, a 2-character hour and a rest. -/
theorem substring_fecha_hora (date hora resto : String)
    (hd : date.length = 10) (hh : hora.length = 2) :
    substring (date ++ " " ++ hora ++ resto) 0 10 = date ∧
    substring (date ++ " " ++ hora ++ resto) 11 13 = hora := by
  have hd2 : date.data.length = 10 := hd
  have hh2 : hora.data.length = 2 := hh
  have hlen : (date ++ " " ++ hora ++ resto).length = 13 + resto.length := by
    simp only [String.length_append, hd, hh]
    have : " ".length = 1 := rfl
    omega
  constructor
  · unfold substring
    simp only [hlen, show ¬ ((0 : Nat) > 10) from by decide, if_false]
    rw [if_neg (by omega), if_neg (by omega)]
    apply String.ext
    simp only [String.data_append, List.append_assoc, List.drop_zero]
    rw [List.take_left' hd2]
  · unfold substring
    simp only [hlen, show ¬ ((11 : Nat) > 13) from by decide, if_false]
    rw [if_neg (by omega), if_neg (by omega)]
    apply String.ext
    simp only [String.data_append]
    have e1 : date.data ++ " ".data ++ hora.data ++ resto.data =
        (date.data ++ " ".data ++ hora.data) ++ resto.data := by simp
    have l1 : (date.data ++ " ".data ++ hora.data).length = 13 := by
      simp [hd2, hh2]
    rw [e1, List.take_left' l1]
    have l2 : (date.data ++ " ".data).length = 11 := by simp [hd2]
    rw [List.drop_left' l2]

namespace Central

/-- What `variablesEnvio` does to the whole state: one serial line, and the command of the
rules in `readingsToSend`. -/
theorem variablesEnvio_eq (t : Nodo) :
    variablesEnvio t =
      { t with serial := t.serial ++ [Salida.txt "condicones para enviar"]
               readingsToSend := reglas t.temp t.hum t.lum t.CO2 t.valHumsuelo } := by
  by_cases h1 : t.temp > 28 ∨ t.hum > 60 ∨ t.CO2 > 1800 <;> by_cases h2 : t.temp < 18 <;>
    by_cases h3 : t.lum > 3500 <;> by_cases h4 : t.lum < 2500 <;>
    by_cases h5 : t.valHumsuelo < 60 <;>
    simp only [variablesEnvio, Nodo.println, reglas, h1, h2, h3, h4, h5,
      if_true, if_false, decide_True, decide_False]

/-- C1. For every node state (any snapshot, any prior `readingsToSend`), `variablesEnvio`
leaves in `readingsToSend` exactly the command of the five strict threshold rules on the
snapshot; it does not touch the snapshot; the result is the same whatever the previous
command was; with `temp = 28` the fan is on only through humidity or CO2, and with
`temp = 18` the heater is off. -/
theorem C1_variablesEnvio_reglas (s : Nodo) :
    (variablesEnvio s).readingsToSend =
      { eVentilador := decide (s.temp > 28 ∨ s.hum > 60 ∨ s.CO2 > 1800)
        eBomba := decide (s.valHumsuelo < 60)
        eLed := decide (s.lum < 2500)
        eAlarma := decide (s.lum > 3500)
        eCalor := decide (s.temp < 18) } ∧
    (variablesEnvio s).readingsToSend = reglas s.temp s.hum s.lum s.CO2 s.valHumsuelo ∧
    (variablesEnvio s).snapshot = s.snapshot ∧
    (∀ cmd : struct_message2,
      (variablesEnvio { s with readingsToSend := cmd }).readingsToSend =
        (variablesEnvio s).readingsToSend) ∧
    (variablesEnvio { s with temp := 28 }).readingsToSend.eVentilador =
      decide (s.hum > 60 ∨ s.CO2 > 1800) ∧
    (variablesEnvio { s with temp := 18 }).readingsToSend.eCalor = false := by
  refine ⟨?_, ?_, ?_, ?_, ?_, ?_⟩
  · rw [variablesEnvio_eq]; rfl
  · rw [variablesEnvio_eq]
  · rw [variablesEnvio_eq]; rfl
  · intro cmd
    rw [variablesEnvio_eq, variablesEnvio_eq]
  · rw [variablesEnvio_eq]
    simp [reglas]
  · rw [variablesEnvio_eq]
    simp [reglas]

/-- The condition of `switchToWiFi` is the spec predicate. -/
theorem switchToWiFi_cond_eq (s : Nodo) : switchToWiFi_cond s = s.alertWorthy := rfl

/-- The condition of `generacionAlarma` is the spec predicate. -/
theorem generacionAlarma_cond_eq (s : Nodo) : generacionAlarma_cond s = s.alertWorthy := rfl

/-- The alerts of a trace extended by one action that is not an alert. -/
theorem alertas_append (l m : List Efecto) : alertas (l ++ m) = alertas l ++ alertas m := by
  simp [alertas, List.filterMap_append]

/-- What `generacionAlarma` adds to the ghost trace. -/
theorem generacionAlarma_efectos (ok : Bool) (s : Nodo) :
    (generacionAlarma ok s).efectos =
      s.efectos ++ (if s.alertWorthy then
        [Efecto.alerta CHAT_ID (textoAlarma s.temp s.hum s.lum s.CO2) ok] else []) := by
  by_cases h : s.alertWorthy = true
  · have h2 : generacionAlarma_cond (s.println (Salida.txt "inicio")) = true := h
    rw [generacionAlarma, if_pos h2, if_pos h]
    rfl
  · have h2 : ¬ generacionAlarma_cond (s.println (Salida.txt "inicio")) = true := h
    rw [generacionAlarma, if_neg h2, if_neg h, List.append_nil]
    rfl

/-- Frame of `esp_now_add_peer`: only the peer table may change. -/
theorem esp_now_add_peer_frame (mac : MAC) (r : Radio) :
    (esp_now_add_peer mac r).2 = { r with peers := (esp_now_add_peer mac r).2.peers } := by
  unfold esp_now_add_peer
  split <;> rfl

/-- Frame of `addPeer`: it writes `peerInfo`, the peer table, `macStr`, the serial port and
the ghost trace, and nothing else. -/
theorem addPeer_eq (mac : MAC) (s : Nodo) :
    addPeer mac s =
      { s with peerInfo_addr := mac
               radio := { s.radio with peers := (esp_now_add_peer mac s.radio).2.peers }
               macStr := (addPeer mac s).macStr
               serial := (addPeer mac s).serial
               efectos := s.efectos ++ [Efecto.peer mac (esp_now_add_peer mac s.radio).1] } := by
  have hr := esp_now_add_peer_frame mac s.radio
  unfold addPeer
  simp only [Nodo.efecto, Nodo.println]
  split <;> simp only [← hr]

/-- Frame of `logSensorData`: it writes the card, the serial port and the ghost trace, where
it adds the appended record exactly when it returns `true`. -/
theorem logSensorData_eq (ts nodeId : String) (rssi : Int) (d : SensorData) (s : Nodo) :
    (logSensorData ts nodeId rssi d s).2 =
      { s with sd := (logSensorData ts nodeId rssi d s).2.sd
               serial := (logSensorData ts nodeId rssi d s).2.serial
               efectos := s.efectos ++
                 (if (logSensorData ts nodeId rssi d s).1 then
                   [Efecto.registro (getFilePath ts) (csvLine ts nodeId rssi d)] else []) } := by
  unfold logSensorData
  simp only [Nodo.efecto, Nodo.println]
  split
  · simp
  · split <;> split <;> simp_all

/-- C2. The test that guards the mode switch in `switchToWiFi` and the test that guards the
alert in `generacionAlarma` are the same predicate `alertWorthy` of the snapshot, which
holds exactly when temp > 28 or temp < 18 or hum > 60 or lum > 3500 or lum < 2500 or
CO2 >= 1800 or soil < 60: `switchToWiFi` takes its switching branch exactly when it holds,
`generacionAlarma` sends one alert exactly when it holds. With CO2 = 1800 the snapshot is
alertWorthy while the CO2 clause of the fan rule is off; for the in-range snapshot with
CO2 = 1800 the command is all off. -/
theorem C2_alertWorthy_compartido (s : Nodo) :
    switchToWiFi_cond s = s.alertWorthy ∧
    generacionAlarma_cond s = s.alertWorthy ∧
    (s.alertWorthy = true ↔
      (s.temp > 28 ∨ s.temp < 18 ∨ s.hum > 60 ∨ s.lum > 3500 ∨ s.lum < 2500 ∨
        s.CO2 ≥ 1800 ∨ s.valHumsuelo < 60)) ∧
    (∀ (fuel : Nat) (e : Entorno), switchToWiFi fuel e s =
      if s.alertWorthy then switchToWiFi_then fuel e s else some { s with useWiFi := false }) ∧
    (∀ ok : Bool, alertas (generacionAlarma ok s).efectos =
      alertas s.efectos ++
        (if s.alertWorthy then [(CHAT_ID, textoAlarma s.temp s.hum s.lum s.CO2, ok)] else [])) ∧
    Nodo.alertWorthy { s with CO2 := 1800 } = true ∧
    (variablesEnvio { s with CO2 := 1800 }).readingsToSend.eVentilador =
      decide (s.temp > 28 ∨ s.hum > 60) ∧
    Nodo.alertWorthy { enRango with CO2 := 1800 } = true ∧
    (variablesEnvio { enRango with CO2 := 1800 }).readingsToSend =
      ⟨false, false, false, false, false⟩ := by
  refine ⟨rfl, rfl, ?_, ?_, ?_, ?_, ?_, ?_, ?_⟩
  · simp [Nodo.alertWorthy, alertWorthy]
  · intro fuel e
    simp [switchToWiFi, switchToWiFi_cond_eq]
  · intro ok
    rw [generacionAlarma_efectos, alertas_append]
    by_cases h : s.alertWorthy = true <;> simp [h, alertas]
  · simp [Nodo.alertWorthy, alertWorthy]
  · rw [variablesEnvio_eq]
    simp [reglas]
  · simp [Nodo.alertWorthy, alertWorthy, enRango, inicial]
  · rw [variablesEnvio_eq]
    simp [reglas, enRango, inicial]
    norm_num

/-- Printing leaves the frame untouched. -/
theorem println_marco (s : Nodo) (x : Salida) : (s.println x).marco = s.marco := rfl
/-- Recording an action leaves the frame untouched. -/
theorem efecto_marco (s : Nodo) (x : Efecto) : (s.efecto x).marco = s.marco := rfl

/-- Frame of `addPeer`. -/
theorem addPeer_marco (mac : MAC) (s : Nodo) : (addPeer mac s).marco = s.marco := by
  rw [addPeer_eq]; rfl

/-- Frame of the registration statements. -/
theorem taskESPNow_registro_marco (s : Nodo) : (taskESPNow_registro s).marco = s.marco := by
  have h : ∀ t : Nodo, Nodo.marco { t with radio := esp_now_register_recv_cb t.radio } = t.marco := by
    intro t
    unfold esp_now_register_recv_cb
    split <;> rfl
  unfold taskESPNow_registro
  simp only []
  rw [h, addPeer_marco, addPeer_marco]

/-- Actions of the registration statements: the two `esp_now_add_peer` calls. -/
theorem taskESPNow_registro_efectos (s : Nodo) :
    ∃ ok1 ok2, (taskESPNow_registro s).efectos =
      s.efectos ++ [Efecto.peer macSensores ok1, Efecto.peer macActuadores ok2] := by
  refine ⟨(esp_now_add_peer macSensores s.radio).1,
    (esp_now_add_peer macActuadores (addPeer macSensores s).radio).1, ?_⟩
  unfold taskESPNow_registro
  show (addPeer macActuadores (addPeer macSensores s)).efectos = _
  rw [addPeer_eq macActuadores]
  show (addPeer macSensores s).efectos ++ _ = _
  rw [addPeer_eq macSensores]
  simp

/-- Frame of the logging statements. -/
theorem taskESPNow_log_marco (e : Entorno) (s : Nodo) : (taskESPNow_log e s).marco = s.marco := by
  have h : ∀ (t : Nodo) (a : SD) (b : List Salida) (c : List Efecto),
      Nodo.marco { t with sd := a, serial := b, efectos := c } = t.marco := fun _ _ _ _ => rfl
  unfold taskESPNow_log
  simp only []
  rw [logSensorData_eq, h]

/-- Frame of `variablesEnvio`. -/
theorem variablesEnvio_marco (s : Nodo) : (variablesEnvio s).marco = s.marco := by
  rw [variablesEnvio_eq]; rfl

/-- Frame of the dispatch statements. -/
theorem taskESPNow_envio_marco (e : Entorno) (s : Nodo) : (taskESPNow_envio e s).marco = s.marco := by
  have h : ∀ t : Nodo, Nodo.marco { t with radio := esp_now_register_send_cb t.radio } = t.marco := by
    intro t
    unfold esp_now_register_send_cb
    split <;> rfl
  unfold taskESPNow_envio
  simp only []
  split
  · rw [println_marco, efecto_marco, h]
  · rw [println_marco, efecto_marco, h]

/-- Frame of the guarded block of `taskESPNow`. -/
theorem taskESPNow_bloque_marco (e : Entorno) (s : Nodo) :
    (taskESPNow_bloque e s).marco = s.marco := by
  have h : ∀ (t : Nodo) (b : Bool), Nodo.marco { t with adicion_peers := b } = t.marco := fun _ _ => rfl
  unfold taskESPNow_bloque
  split
  · simp only []
    rw [h, taskESPNow_envio_marco, println_marco, variablesEnvio_marco, taskESPNow_log_marco,
      taskESPNow_registro_marco]
  · rfl

/-- Equal frames have equal components. -/
theorem marco_campos {a b : Nodo} (h : a.marco = b.marco) :
    a.temp = b.temp ∧ a.hum = b.hum ∧ a.lum = b.lum ∧ a.CO2 = b.CO2 ∧
    a.valHumsuelo = b.valHumsuelo ∧ a.useWiFi = b.useWiFi ∧ a.radio.espnow = b.radio.espnow ∧
    a.radio.wifi = b.radio.wifi ∧ a.incomingReadings = b.incomingReadings := by
  simp only [Nodo.marco, Nodo.snapshot, Prod.mk.injEq] at h
  obtain ⟨⟨h1, h2, h3, h4, h5⟩, h6, h7, h8, h9⟩ := h
  exact ⟨h1, h2, h3, h4, h5, h6, h7, h8, h9⟩

/-- The breach predicate only reads the frame. -/
theorem marco_alertWorthy {a b : Nodo} (h : a.marco = b.marco) : a.alertWorthy = b.alertWorthy := by
  obtain ⟨h1, h2, h3, h4, h5, -⟩ := marco_campos h
  simp only [Nodo.alertWorthy, h1, h2, h3, h4, h5]

/-- Actions of the logging statements: at most the appended record of the snapshot. -/
theorem taskESPNow_log_efectos (e : Entorno) (s : Nodo) :
    ∃ lg : Bool, (taskESPNow_log e s).efectos = s.efectos ++
      (if lg then [Efecto.registro (getFilePath (getTimestampFromRTC e.ahora))
        (csvLine (getTimestampFromRTC e.ahora) "NODE1" (-60)
          ⟨s.temp, s.hum, aUint16 s.lum, s.CO2, s.valHumsuelo⟩)] else []) := by
  refine ⟨(logSensorData (getTimestampFromRTC e.ahora) "NODE1" (-60)
    ⟨s.temp, s.hum, aUint16 s.lum, s.CO2, s.valHumsuelo⟩ s).1, ?_⟩
  unfold taskESPNow_log
  simp only []
  rw [logSensorData_eq]

/-- Actions of the dispatch statements: one send of `readingsToSend`. -/
theorem taskESPNow_envio_efectos (e : Entorno) (s : Nodo) :
    ∃ res : Bool, (taskESPNow_envio e s).efectos =
      s.efectos ++ [Efecto.envio macActuadores s.readingsToSend res] ∧
      (taskESPNow_envio e s).readingsToSend = s.readingsToSend := by
  refine ⟨esp_now_send e.envioOk macActuadores (esp_now_register_send_cb s.radio), ?_⟩
  unfold taskESPNow_envio
  simp only []
  split <;> exact ⟨rfl, rfl⟩

/-- The guarded block when `adicion_peers` is false, as a composition of its statements. -/
theorem taskESPNow_bloque_pend (e : Entorno) (s : Nodo) (h : s.adicion_peers = false) :
    taskESPNow_bloque e s =
      { taskESPNow_envio e ((variablesEnvio (taskESPNow_log e (taskESPNow_registro s))).println
          (Salida.txt "despues de funcion envio")) with adicion_peers := true } := by
  unfold taskESPNow_bloque
  simp only [h, beq_self_eq_true, if_true]

/-- Actions of the guarded block when `adicion_peers` is false: two registrations, the log record if the append succeeded, then the dispatch of the command of the rules. -/
theorem taskESPNow_bloque_efectos (e : Entorno) (s : Nodo) (h : s.adicion_peers = false) :
    ∃ ok1 ok2 lg res : Bool, (taskESPNow_bloque e s).efectos =
      s.efectos ++ [Efecto.peer macSensores ok1, Efecto.peer macActuadores ok2] ++
      (if lg then [Efecto.registro (getFilePath (getTimestampFromRTC e.ahora))
        (csvLine (getTimestampFromRTC e.ahora) "NODE1" (-60)
          ⟨s.temp, s.hum, aUint16 s.lum, s.CO2, s.valHumsuelo⟩)] else []) ++
      [Efecto.envio macActuadores (reglas s.temp s.hum s.lum s.CO2 s.valHumsuelo) res] ∧
      (taskESPNow_bloque e s).readingsToSend = reglas s.temp s.hum s.lum s.CO2 s.valHumsuelo ∧
      (taskESPNow_bloque e s).adicion_peers = true := by
  obtain ⟨ok1, ok2, hreg⟩ := taskESPNow_registro_efectos s
  obtain ⟨lg, hlog⟩ := taskESPNow_log_efectos e (taskESPNow_registro s)
  obtain ⟨res, henv, hcmd⟩ := taskESPNow_envio_efectos e
    ((variablesEnvio (taskESPNow_log e (taskESPNow_registro s))).println
      (Salida.txt "despues de funcion envio"))
  obtain ⟨h1, h2, h3, h4, h5, -⟩ := marco_campos (taskESPNow_registro_marco s)
  obtain ⟨g1, g2, g3, g4, g5, -⟩ := marco_campos (taskESPNow_log_marco e (taskESPNow_registro s))
  have hve : ∀ t : Nodo, ((variablesEnvio t).println (Salida.txt "despues de funcion envio")).efectos
      = t.efectos := by
    intro t; rw [variablesEnvio_eq]; rfl
  have hvc : ∀ t : Nodo,
      ((variablesEnvio t).println (Salida.txt "despues de funcion envio")).readingsToSend
      = reglas t.temp t.hum t.lum t.CO2 t.valHumsuelo := by
    intro t; rw [variablesEnvio_eq]; rfl
  refine ⟨ok1, ok2, lg, res, ?_, ?_, ?_⟩
  · rw [taskESPNow_bloque_pend e s h]
    dsimp only
    rw [henv, hve, hvc, hlog, hreg, g1, g2, g3, g4, g5, h1, h2, h3, h4, h5]
  · rw [taskESPNow_bloque_pend e s h]
    dsimp only
    rw [hcmd, hvc, g1, g2, g3, g4, g5, h1, h2, h3, h4, h5]
  · rw [taskESPNow_bloque_pend e s h]

/-- The guarded block does nothing when `adicion_peers` is true. -/
theorem taskESPNow_bloque_hecho (e : Entorno) (s : Nodo) (h : s.adicion_peers = true) :
    taskESPNow_bloque e s = s := by
  unfold taskESPNow_bloque
  simp only [h, Bool.true_eq_false, if_false]
  rfl

/-- The polling loop returns at once on a connected link. -/
theorem whileNoConectado_conectado (fuel : Nat) (s : Nodo) (h : s.radio.wifi = WiFiLink.conectado) :
    whileNoConectado (fuel + 1) s = some s := by
  have hst : WiFi_status s.radio = (true, s.radio) := by
    unfold WiFi_status
    rw [h]
  unfold whileNoConectado
  simp only [hst]
  rfl

/-- The polling loop returns after `k` failed polls when the fuel exceeds `k`. -/
theorem whileNoConectado_asociando (k : Nat) :
    ∀ (fuel : Nat) (s : Nodo), s.radio.wifi = WiFiLink.asociando k → k < fuel →
      whileNoConectado fuel s =
        some { s with radio := { s.radio with wifi := WiFiLink.conectado }
                      serial := s.serial ++ List.replicate k (Salida.txt "conectando...") } := by
  induction k with
  | zero =>
    intro fuel s h hk
    obtain ⟨n, rfl⟩ : ∃ n, fuel = n + 1 := ⟨fuel - 1, by omega⟩
    have hst : WiFi_status s.radio = (true, { s.radio with wifi := WiFiLink.conectado }) := by
      unfold WiFi_status
      rw [h]
    unfold whileNoConectado
    simp only [hst]
    simp
  | succ k ih =>
    intro fuel s h hk
    obtain ⟨n, rfl⟩ : ∃ n, fuel = n + 1 := ⟨fuel - 1, by omega⟩
    have hst : WiFi_status s.radio = (false, { s.radio with wifi := WiFiLink.asociando k }) := by
      unfold WiFi_status
      rw [h]
    unfold whileNoConectado
    simp only [hst]
    rw [if_pos (by decide)]
    rw [ih n _ rfl (by omega)]
    simp [Nodo.println, List.replicate_succ]

/-- The polling loop never returns while the access point does not accept the station. -/
theorem whileNoConectado_inalcanzable (fuel : Nat) :
    ∀ s : Nodo, s.radio.wifi = WiFiLink.inalcanzable → whileNoConectado fuel s = none := by
  induction fuel with
  | zero => intro s _; rfl
  | succ n ih =>
    intro s h
    have hst : WiFi_status s.radio = (false, s.radio) := by
      unfold WiFi_status
      rw [h]
    unfold whileNoConectado
    simp only [hst]
    rw [if_pos (by decide)]
    exact ih _ h

/-- The switching branch of `switchToWiFi` when the access point answers after `k` polls. -/
theorem switchToWiFi_then_eq (fuel k : Nat) (e : Entorno) (s : Nodo)
    (he : e.retardoWiFi = some k) (hk : k < fuel) :
    switchToWiFi_then fuel e s =
      some { s with radio := { espnow := false, peers := [], recvCb := false, sendCb := false,
                               wifi := WiFiLink.conectado }
                    adicion_peers := false
                    efectos := s.efectos ++
                      [Efecto.espnowDeinit, Efecto.wifiDisconnect, Efecto.wifiBegin]
                    serial := s.serial ++ List.replicate k (Salida.txt "conectando...") } := by
  unfold switchToWiFi_then
  simp only [Nodo.efecto, esp_now_deinit, WiFi_disconnect, WiFi_begin, he]
  rw [whileNoConectado_asociando k fuel _ rfl hk]
  simp

/-- Effect of `OnDataRecv` on a frame from the sensor board. -/
theorem OnDataRecv_conocido (m : struct_message) (s : Nodo) :
    OnDataRecv macSensores m s =
      { s with incomingReadings := m
               macStr := fmtMAC macSensores
               temp := m.temperatura
               hum := m.humedad
               lum := (m.luminosidad.val : Int)
               CO2 := m.vCO2
               valHumsuelo := m.humedadSuelo
               serial := s.serial ++
                 [Salida.txt "Temperatura: ", Salida.real m.temperatura,
                  Salida.txt "Humedad: ", Salida.real m.humedad,
                  Salida.txt "Luz: ", Salida.entero m.luminosidad.val,
                  Salida.txt "CO2: ", Salida.real m.vCO2,
                  Salida.txt "Humedad Suelo: ", Salida.real m.humedadSuelo] } := by
  have h : memcmp6_eq0 macSensores macSensores = true := (memcmp6_eq0_iff _ _).2 rfl
  unfold OnDataRecv
  simp only [h, if_true, Nodo.println, List.append_assoc, List.singleton_append, List.cons_append,
    List.nil_append]

/-- Effect of `OnDataRecv` on a frame from any other sender. -/
theorem OnDataRecv_desconocido (src : MAC) (m : struct_message) (s : Nodo)
    (h : src ≠ macSensores) :
    OnDataRecv src m s =
      { s with incomingReadings := m
               macStr := fmtMAC src
               serial := s.serial ++ [Salida.txt "MAC desconocida"] } := by
  have h2 : ¬ memcmp6_eq0 src macSensores = true := fun hc => h ((memcmp6_eq0_iff _ _).1 hc)
  unfold OnDataRecv
  simp only [h2, if_false, Nodo.println]
  rfl

/-- Registration never removes a peer. -/
theorem esp_now_add_peer_peers (mac : MAC) (r : Radio) :
    ∀ m ∈ r.peers, m ∈ (esp_now_add_peer mac r).2.peers := by
  intro m hm
  unfold esp_now_add_peer
  split
  · simp [hm]
  · exact hm

/-- The radio after `addPeer`. -/
theorem addPeer_radio (mac : MAC) (s : Nodo) :
    (addPeer mac s).radio = (esp_now_add_peer mac s.radio).2 := by
  rw [addPeer_eq]
  exact (esp_now_add_peer_frame mac s.radio).symm

/-- The guarded block never removes a peer. -/
theorem taskESPNow_bloque_peers (e : Entorno) (s : Nodo) :
    ∀ m ∈ s.radio.peers, m ∈ (taskESPNow_bloque e s).radio.peers := by
  intro m hm
  by_cases h : s.adicion_peers = false
  · have hlog : ∀ t : Nodo, (taskESPNow_log e t).radio = t.radio := by
      intro t
      unfold taskESPNow_log
      simp only []
      rw [logSensorData_eq]
    have hve : ∀ t : Nodo, ((variablesEnvio t).println
        (Salida.txt "despues de funcion envio")).radio = t.radio := by
      intro t; rw [variablesEnvio_eq]; rfl
    have henv : ∀ t : Nodo, (taskESPNow_envio e t).radio = esp_now_register_send_cb t.radio := by
      intro t
      unfold taskESPNow_envio
      simp only []
      split <;> rfl
    have hreg : (taskESPNow_registro s).radio = esp_now_register_recv_cb
        (esp_now_add_peer macActuadores (esp_now_add_peer macSensores s.radio).2).2 := by
      unfold taskESPNow_registro
      dsimp only
      rw [addPeer_radio, addPeer_radio]
    have hcb1 : ∀ r : Radio, (esp_now_register_send_cb r).peers = r.peers := by
      intro r; unfold esp_now_register_send_cb; split <;> rfl
    have hcb2 : ∀ r : Radio, (esp_now_register_recv_cb r).peers = r.peers := by
      intro r; unfold esp_now_register_recv_cb; split <;> rfl
    rw [taskESPNow_bloque_pend e s h]
    dsimp only
    rw [henv, hve, hlog, hreg, hcb1, hcb2]
    exact esp_now_add_peer_peers _ _ _ (esp_now_add_peer_peers _ _ _ hm)
  · have h2 : s.adicion_peers = true := by simpa using h
    rw [taskESPNow_bloque_hecho e s h2]
    exact hm

/-- The guarded block adds no alert and no radio context change to the trace. -/
theorem taskESPNow_bloque_nuevos (e : Entorno) (s : Nodo) :
    ∃ nuevos : List Efecto, (taskESPNow_bloque e s).efectos = s.efectos ++ nuevos ∧
      alertas nuevos = [] ∧ Efecto.espnowDeinit ∉ nuevos ∧ Efecto.wifiDisconnect ∉ nuevos ∧
      Efecto.wifiBegin ∉ nuevos := by
  by_cases h : s.adicion_peers = false
  · obtain ⟨ok1, ok2, lg, res, hef, -, -⟩ := taskESPNow_bloque_efectos e s h
    rw [List.append_assoc, List.append_assoc] at hef
    refine ⟨_, hef, ?_, ?_, ?_, ?_⟩
    · cases lg <;> simp [alertas]
    · cases lg <;> simp
    · cases lg <;> simp
    · cases lg <;> simp
  · have h2 : s.adicion_peers = true := by simpa using h
    exact ⟨[], by rw [taskESPNow_bloque_hecho e s h2, List.append_nil], rfl, by simp, by simp,
      by simp⟩

/-- States of an iteration of `taskESPNow` on a snapshot without breach. -/
theorem taskESPNow_pasos_sin_brecha (fuel : Nat) (e : Entorno) (s : Nodo)
    (hm : s.useWiFi = false) (hn : s.alertWorthy = false) :
    taskESPNow_pasos fuel e s =
      [taskESPNow_bloque e s, { taskESPNow_bloque e s with useWiFi := true },
       { taskESPNow_bloque e s with useWiFi := false }] ∧
    taskESPNow_iter fuel e s = some { taskESPNow_bloque e s with useWiFi := false } := by
  have hc : switchToWiFi_cond { taskESPNow_bloque e s with useWiFi := true } = false := by
    have : Nodo.alertWorthy { taskESPNow_bloque e s with useWiFi := true } =
        (taskESPNow_bloque e s).alertWorthy := rfl
    rw [switchToWiFi_cond_eq, this, marco_alertWorthy (taskESPNow_bloque_marco e s), hn]
  have hs : switchToWiFi fuel e { taskESPNow_bloque e s with useWiFi := true } =
      some { taskESPNow_bloque e s with useWiFi := false } := by
    unfold switchToWiFi
    rw [hc]
    rfl
  constructor
  · unfold taskESPNow_pasos
    simp only [hm, Bool.not_false, if_true]
    rw [hs]
    rfl
  · unfold taskESPNow_iter
    simp only [hm, Bool.not_false, if_true]
    rw [hs]

/-- The breach predicate does not read the mode flag. -/
theorem alertWorthy_con_useWiFi (t : Nodo) (b : Bool) :
    Nodo.alertWorthy { t with useWiFi := b } = t.alertWorthy := rfl

/-- The sample in-range state is in peer-link mode and has no breach. -/
theorem enRango_sin_brecha : enRango.useWiFi = false ∧ enRango.alertWorthy = false := by
  constructor
  · rfl
  · simp [Nodo.alertWorthy, alertWorthy, enRango, inicial]
    norm_num

/-- The sample state with temperature 30 is in peer-link mode and has a breach. -/
theorem caliente_brecha : caliente.useWiFi = false ∧ caliente.alertWorthy = true := by
  constructor
  · rfl
  · simp [Nodo.alertWorthy, alertWorthy, caliente, enRango, inicial]
    norm_num

/-- C3 (amended). Starting in PeerLinkPhase (`useWiFi = false`) with a snapshot that is not
alertWorthy, one iteration of `taskESPNow` returns for any fuel and ends in PeerLinkPhase
(`useWiFi = false` in the final state); the flag is set at line 470 and cleared again by the
`else` branch of `switchToWiFi`, so the states of the iteration are `s1`, `s1` with the flag
set, `s1` with the flag cleared. The snapshot, the ESP-NOW context, its peers and the WiFi
link are kept, and the new actions contain no alert, no `esp_now_deinit`, no WiFi
disconnect and no WiFi start. -/
theorem C3_ciclo_sin_brecha (fuel : Nat) (e : Entorno) (s : Nodo)
    (hm : s.useWiFi = false) (hn : s.alertWorthy = false) :
    ∃ s1 nuevos,
      taskESPNow_pasos fuel e s =
        [s1, { s1 with useWiFi := true }, { s1 with useWiFi := false }] ∧
      taskESPNow_iter fuel e s = some { s1 with useWiFi := false } ∧
      s1.snapshot = s.snapshot ∧ s1.useWiFi = false ∧
      s1.radio.espnow = s.radio.espnow ∧ s1.radio.wifi = s.radio.wifi ∧
      (∀ m ∈ s.radio.peers, m ∈ s1.radio.peers) ∧
      s1.efectos = s.efectos ++ nuevos ∧ alertas nuevos = [] ∧
      Efecto.espnowDeinit ∉ nuevos ∧ Efecto.wifiDisconnect ∉ nuevos ∧
      Efecto.wifiBegin ∉ nuevos := by
  obtain ⟨nuevos, h1, h2, h3, h4, h5⟩ := taskESPNow_bloque_nuevos e s
  obtain ⟨g1, g2, g3, g4, g5, g6, g7, g8, -⟩ := marco_campos (taskESPNow_bloque_marco e s)
  refine ⟨taskESPNow_bloque e s, nuevos, (taskESPNow_pasos_sin_brecha fuel e s hm hn).1,
    (taskESPNow_pasos_sin_brecha fuel e s hm hn).2, ?_, g6.trans hm, g7, g8,
    taskESPNow_bloque_peers e s, h1, h2, h3, h4, h5⟩
  simp only [Nodo.snapshot, g1, g2, g3, g4, g5]

/-- Witness of C3 (amended) on the sample in-range state. -/
theorem C3_ciclo_sin_brecha_witness :
    enRango.useWiFi = false ∧ enRango.alertWorthy = false ∧
    ∃ s1 nuevos,
      taskESPNow_pasos 0 entornoBueno enRango =
        [s1, { s1 with useWiFi := true }, { s1 with useWiFi := false }] ∧
      taskESPNow_iter 0 entornoBueno enRango = some { s1 with useWiFi := false } ∧
      s1.snapshot = enRango.snapshot ∧ s1.useWiFi = false ∧
      s1.radio.espnow = enRango.radio.espnow ∧ s1.radio.wifi = enRango.radio.wifi ∧
      (∀ m ∈ enRango.radio.peers, m ∈ s1.radio.peers) ∧
      s1.efectos = enRango.efectos ++ nuevos ∧ alertas nuevos = [] ∧
      Efecto.espnowDeinit ∉ nuevos ∧ Efecto.wifiDisconnect ∉ nuevos ∧
      Efecto.wifiBegin ∉ nuevos :=
  ⟨enRango_sin_brecha.1, enRango_sin_brecha.2,
    C3_ciclo_sin_brecha 0 entornoBueno enRango enRango_sin_brecha.1 enRango_sin_brecha.2⟩

/-- C3 (counterexample). On the sample in-range state, which is in PeerLinkPhase and not
alertWorthy, the second state of the iteration of `taskESPNow` has `useWiFi = true`: it is
not the case that `useWiFi` is false throughout the cycle. -/
theorem C3_bandera_transitoria :
    enRango.useWiFi = false ∧ enRango.alertWorthy = false ∧
    (taskESPNow_pasos 1 entornoBueno enRango).map (fun st => (st.useWiFi, st.alertWorthy)) =
      [(false, false), (true, false), (false, false)] ∧
    ¬ (∀ st ∈ taskESPNow_pasos 1 entornoBueno enRango, st.useWiFi = false) := by
  have hp := (taskESPNow_pasos_sin_brecha 1 entornoBueno enRango
    enRango_sin_brecha.1 enRango_sin_brecha.2).1
  have ha : (taskESPNow_bloque entornoBueno enRango).alertWorthy = false :=
    (marco_alertWorthy (taskESPNow_bloque_marco entornoBueno enRango)).trans enRango_sin_brecha.2
  have hu : (taskESPNow_bloque entornoBueno enRango).useWiFi = false :=
    (marco_campos (taskESPNow_bloque_marco entornoBueno enRango)).2.2.2.2.2.1.trans
      enRango_sin_brecha.1
  have hl : (taskESPNow_pasos 1 entornoBueno enRango).map
      (fun st => (st.useWiFi, st.alertWorthy)) = [(false, false), (true, false), (false, false)] := by
    rw [hp]
    generalize taskESPNow_bloque entornoBueno enRango = X at ha hu
    show [(X.useWiFi, X.alertWorthy), (true, X.alertWorthy), (false, X.alertWorthy)] = _
    rw [ha, hu]
  refine ⟨enRango_sin_brecha.1, enRango_sin_brecha.2, hl, ?_⟩
  intro hall
  rw [hp] at hall
  have hx := hall { taskESPNow_bloque entornoBueno enRango with useWiFi := true }
    (List.mem_cons_of_mem _ (List.mem_cons_self _ _))
  exact Bool.noConfusion hx

/-- Effect of `generacionAlarma` on the whole state. -/
theorem generacionAlarma_eq (ok : Bool) (s : Nodo) :
    generacionAlarma ok s =
      { s with serial := s.serial ++ (if s.alertWorthy then
                 [Salida.txt "inicio", Salida.txt "inicio condicional",
                  Salida.txt "despues del formateo de datos",
                  Salida.txt (textoAlarma s.temp s.hum s.lum s.CO2),
                  Salida.txt "despues de enviar el mensaje a telegram"]
                 else [Salida.txt "inicio"])
               efectos := s.efectos ++ (if s.alertWorthy then
                 [Efecto.alerta CHAT_ID (textoAlarma s.temp s.hum s.lum s.CO2) ok] else []) } := by
  by_cases h : s.alertWorthy = true
  · have h2 : generacionAlarma_cond (s.println (Salida.txt "inicio")) = true := h
    rw [generacionAlarma, if_pos h2, if_pos h, if_pos h]
    simp only [Nodo.println, Nodo.efecto, List.append_assoc, List.singleton_append,
      List.cons_append, List.nil_append]
  · have h2 : ¬ generacionAlarma_cond (s.println (Salida.txt "inicio")) = true := h
    rw [generacionAlarma, if_neg h2, if_neg h, if_neg h, List.append_nil]
    rfl

/-- Effect of `switchToESPNow` on the whole state. -/
theorem switchToESPNow_eq (e : Entorno) (s : Nodo) :
    switchToESPNow e s =
      { s with radio := esp_now_init e.initOk (WiFi_disconnect s.radio)
               efectos := s.efectos ++ [Efecto.wifiDisconnect, Efecto.espnowInit e.initOk]
               serial := s.serial ++ [Salida.txt (if e.initOk then "inicio correctamente"
                 else "Error inicializando ESP-NOW")] } := by
  unfold switchToESPNow
  cases e.initOk <;> simp [Nodo.efecto, Nodo.println]

/-- An iteration of `taskWiFi` entered in WiFi mode with the link up. -/
theorem taskWiFi_iter_conectado (fuel : Nat) (e : Entorno) (s : Nodo)
    (hu : s.useWiFi = true) (hw : s.radio.wifi = WiFiLink.conectado) :
    taskWiFi_iter (fuel + 1) e s =
      some (switchToESPNow e
        { generacionAlarma e.telegramOk (s.println (Salida.txt "conectado")) with
          useWiFi := false }) := by
  have hst : WiFi_status s.radio = (true, s.radio) := by
    unfold WiFi_status
    rw [hw]
  have hwl := whileNoConectado_conectado fuel (s.println (Salida.txt "conectado")) hw
  have heta : ({ s with radio := s.radio } : Nodo) = s := rfl
  unfold taskWiFi_iter
  rw [if_pos (by rw [hu]; rfl)]
  simp only [hst, heta, bne_self_eq_false, Bool.false_eq_true, if_false]
  rw [hwl]

/-- An iteration of `taskESPNow` on a snapshot with a breach, when the access point answers. -/
theorem taskESPNow_iter_brecha (fuel k : Nat) (e : Entorno) (s : Nodo)
    (hm : s.useWiFi = false) (hb : s.alertWorthy = true)
    (he : e.retardoWiFi = some k) (hk : k < fuel) :
    taskESPNow_iter fuel e s =
      some { taskESPNow_bloque e s with
        useWiFi := true
        radio := { espnow := false, peers := [], recvCb := false, sendCb := false,
                   wifi := WiFiLink.conectado }
        adicion_peers := false
        efectos := (taskESPNow_bloque e s).efectos ++
          [Efecto.espnowDeinit, Efecto.wifiDisconnect, Efecto.wifiBegin]
        serial := (taskESPNow_bloque e s).serial ++
          List.replicate k (Salida.txt "conectando...") } := by
  have hc : switchToWiFi_cond { taskESPNow_bloque e s with useWiFi := true } = true := by
    rw [switchToWiFi_cond_eq, alertWorthy_con_useWiFi,
      marco_alertWorthy (taskESPNow_bloque_marco e s), hb]
  unfold taskESPNow_iter
  simp only [hm, Bool.not_false, if_true]
  unfold switchToWiFi
  rw [if_pos hc, switchToWiFi_then_eq fuel k e _ he hk]

/-- State after an iteration of `taskWiFi` entered in WiFi mode with the link up. -/
theorem taskWiFi_iter_conectado_eq (fuel : Nat) (e : Entorno) (s : Nodo)
    (hu : s.useWiFi = true) (hw : s.radio.wifi = WiFiLink.conectado) :
    taskWiFi_iter (fuel + 1) e s =
      some { s with
        useWiFi := false
        radio := esp_now_init e.initOk (WiFi_disconnect s.radio)
        efectos := (s.efectos ++ (if s.alertWorthy then
            [Efecto.alerta CHAT_ID (textoAlarma s.temp s.hum s.lum s.CO2) e.telegramOk] else [])) ++
          [Efecto.wifiDisconnect, Efecto.espnowInit e.initOk]
        serial := ((s.serial ++ [Salida.txt "conectado"]) ++ (if s.alertWorthy then
            [Salida.txt "inicio", Salida.txt "inicio condicional",
             Salida.txt "despues del formateo de datos",
             Salida.txt (textoAlarma s.temp s.hum s.lum s.CO2),
             Salida.txt "despues de enviar el mensaje a telegram"]
            else [Salida.txt "inicio"])) ++
          [Salida.txt (if e.initOk then "inicio correctamente"
            else "Error inicializando ESP-NOW")] } := by
  rw [taskWiFi_iter_conectado fuel e s hu hw, switchToESPNow_eq, generacionAlarma_eq]
  rfl

/-- Radio after `switchToESPNow` when the ESP-NOW context was down. -/
theorem esp_now_init_apagado (ok : Bool) (r : Radio) (h : r.espnow = false) :
    (esp_now_init ok (WiFi_disconnect r)).espnow = ok ∧
    (esp_now_init ok (WiFi_disconnect r)).wifi = WiFiLink.apagado := by
  cases ok <;> simp [esp_now_init, WiFi_disconnect, h]

/-- C4. Starting in PeerLinkPhase with an alertWorthy snapshot, when the access point accepts
the station after `k` polls and the fuel exceeds `k`, the iteration of `taskESPNow` returns
in InfrastructurePhase (`useWiFi = true`, ESP-NOW context down, WiFi connected) without
having sent an alert; the following iteration of `taskWiFi` returns, adds to the trace
exactly one alert, with the text of the snapshot, then the WiFi disconnect and the
`esp_now_init` of `switchToESPNow`, and leaves `useWiFi = false`; this holds for every
outcome of the Telegram send (`e2.telegramOk`). -/
theorem C4_episodio_de_brecha (fuel k fuel2 : Nat) (e e2 : Entorno) (s : Nodo)
    (hm : s.useWiFi = false) (hb : s.alertWorthy = true)
    (he : e.retardoWiFi = some k) (hk : k < fuel) (hf : 0 < fuel2) :
    ∃ s1 s2 : Nodo,
      taskESPNow_iter fuel e s = some s1 ∧
      s1.useWiFi = true ∧ s1.radio.espnow = false ∧ s1.radio.wifi = WiFiLink.conectado ∧
      s1.snapshot = s.snapshot ∧ alertas s1.efectos = alertas s.efectos ∧
      taskWiFi_iter fuel2 e2 s1 = some s2 ∧
      s2.efectos = s1.efectos ++
        [Efecto.alerta CHAT_ID (textoAlarma s.temp s.hum s.lum s.CO2) e2.telegramOk,
         Efecto.wifiDisconnect, Efecto.espnowInit e2.initOk] ∧
      alertas s2.efectos = alertas s.efectos ++
        [(CHAT_ID, textoAlarma s.temp s.hum s.lum s.CO2, e2.telegramOk)] ∧
      s2.useWiFi = false ∧ s2.radio.espnow = e2.initOk ∧ s2.radio.wifi = WiFiLink.apagado ∧
      s2.adicion_peers = false ∧ s2.snapshot = s.snapshot := by
  obtain ⟨n, rfl⟩ : ∃ n, fuel2 = n + 1 := ⟨fuel2 - 1, by omega⟩
  obtain ⟨nuevos, h1, h2, -⟩ := taskESPNow_bloque_nuevos e s
  obtain ⟨g1, g2, g3, g4, g5, -⟩ := marco_campos (taskESPNow_bloque_marco e s)
  have hB := marco_alertWorthy (taskESPNow_bloque_marco e s)
  have hiter := taskESPNow_iter_brecha fuel k e s hm hb he hk
  generalize taskESPNow_bloque e s = B at h1 g1 g2 g3 g4 g5 hB hiter
  have hsnap : B.snapshot = s.snapshot := by
    simp only [Nodo.snapshot, g1, g2, g3, g4, g5]
  have hal : alertas (B.efectos ++ [Efecto.espnowDeinit, Efecto.wifiDisconnect, Efecto.wifiBegin])
      = alertas s.efectos := by
    rw [h1, alertas_append, alertas_append, h2]
    simp [alertas]
  have hS1 : Nodo.alertWorthy { B with
      useWiFi := true
      radio := { espnow := false, peers := [], recvCb := false, sendCb := false,
                 wifi := WiFiLink.conectado }
      adicion_peers := false
      efectos := B.efectos ++ [Efecto.espnowDeinit, Efecto.wifiDisconnect, Efecto.wifiBegin]
      serial := B.serial ++ List.replicate k (Salida.txt "conectando...") } = true :=
    hB.trans hb
  refine ⟨_, _, hiter, rfl, rfl, rfl, hsnap, hal, taskWiFi_iter_conectado_eq n e2 _ rfl rfl,
    ?_, ?_, rfl, ?_, ?_, rfl, hsnap⟩
  · dsimp only at hS1 ⊢
    rw [if_pos hS1, g1, g2, g3, g4, List.append_assoc (B.efectos ++ _)]
    rfl
  · dsimp only at hS1 ⊢
    rw [if_pos hS1, g1, g2, g3, g4, alertas_append, alertas_append, hal]
    simp [alertas]
  · exact (esp_now_init_apagado e2.initOk _ rfl).1
  · exact (esp_now_init_apagado e2.initOk _ rfl).2

/-- Witness of C4 on the sample state with temperature 30. -/
theorem C4_episodio_de_brecha_witness :
    caliente.useWiFi = false ∧ caliente.alertWorthy = true ∧
    entornoBueno.retardoWiFi = some 2 ∧ 2 < 3 ∧ 0 < 1 ∧
    ∃ s1 s2 : Nodo,
      taskESPNow_iter 3 entornoBueno caliente = some s1 ∧
      s1.useWiFi = true ∧ s1.radio.espnow = false ∧ s1.radio.wifi = WiFiLink.conectado ∧
      s1.snapshot = caliente.snapshot ∧ alertas s1.efectos = alertas caliente.efectos ∧
      taskWiFi_iter 1 entornoBueno s1 = some s2 ∧
      s2.efectos = s1.efectos ++
        [Efecto.alerta CHAT_ID (textoAlarma caliente.temp caliente.hum caliente.lum caliente.CO2)
           entornoBueno.telegramOk,
         Efecto.wifiDisconnect, Efecto.espnowInit entornoBueno.initOk] ∧
      alertas s2.efectos = alertas caliente.efectos ++
        [(CHAT_ID, textoAlarma caliente.temp caliente.hum caliente.lum caliente.CO2,
          entornoBueno.telegramOk)] ∧
      s2.useWiFi = false ∧ s2.radio.espnow = entornoBueno.initOk ∧
      s2.radio.wifi = WiFiLink.apagado ∧
      s2.adicion_peers = false ∧ s2.snapshot = caliente.snapshot :=
  ⟨caliente_brecha.1, caliente_brecha.2, rfl, by decide, by decide,
    C4_episodio_de_brecha 3 2 1 entornoBueno entornoBueno caliente caliente_brecha.1
      caliente_brecha.2 rfl (by decide) (by decide)⟩

/-- An iteration of `taskESPNow` without breach and with `adicion_peers` set changes nothing. -/
theorem taskESPNow_iter_ocioso (fuel : Nat) (e : Entorno) (t : Nodo)
    (hu : t.useWiFi = false) (hp : t.adicion_peers = true) (hn : t.alertWorthy = false) :
    taskESPNow_iter fuel e t = some t := by
  rw [(taskESPNow_pasos_sin_brecha fuel e t hu hn).2, taskESPNow_bloque_hecho e t hp]
  cases t
  simp only at hu
  subst hu
  rfl

/-- After the guarded block `adicion_peers` is set. -/
theorem taskESPNow_bloque_adicion (e : Entorno) (s : Nodo) :
    (taskESPNow_bloque e s).adicion_peers = true := by
  by_cases h : s.adicion_peers = false
  · rw [taskESPNow_bloque_pend e s h]
  · have h2 : s.adicion_peers = true := by simpa using h
    rw [taskESPNow_bloque_hecho e s h2, h2]

/-- C5 (evaluation of the code). After one iteration of `taskESPNow` on a snapshot without
breach the flag `adicion_peers` is set and the node is still in PeerLinkPhase; the next
iteration then returns the state unchanged: no log record is appended and nothing is
dispatched, also when a new in-range reading `m` of the sensor board has been ingested in
between. -/
theorem C5_ciclo_siguiente_sin_registro_ni_envio (fuel1 fuel2 : Nat) (e1 e2 : Entorno)
    (s : Nodo) (m : struct_message)
    (hm : s.useWiFi = false) (hn : s.alertWorthy = false)
    (hmsg : alertWorthy m.temperatura m.humedad m.luminosidad.val m.vCO2 m.humedadSuelo = false) :
    ∃ s1 : Nodo,
      taskESPNow_iter fuel1 e1 s = some s1 ∧ s1.useWiFi = false ∧ s1.adicion_peers = true ∧
      taskESPNow_iter fuel2 e2 s1 = some s1 ∧
      (OnDataRecv macSensores m s1).snapshot =
        (m.temperatura, m.humedad, (m.luminosidad.val : Int), m.vCO2, m.humedadSuelo) ∧
      taskESPNow_iter fuel2 e2 (OnDataRecv macSensores m s1) =
        some (OnDataRecv macSensores m s1) := by
  have hB := marco_alertWorthy (taskESPNow_bloque_marco e1 s)
  have hA := taskESPNow_bloque_adicion e1 s
  have hiter := (taskESPNow_pasos_sin_brecha fuel1 e1 s hm hn).2
  generalize taskESPNow_bloque e1 s = B at hB hA hiter
  have h1 : Nodo.alertWorthy { B with useWiFi := false } = false := by
    rw [alertWorthy_con_useWiFi, hB, hn]
  refine ⟨{ B with useWiFi := false }, hiter, rfl, hA, taskESPNow_iter_ocioso fuel2 e2 _ rfl hA h1,
    ?_, ?_⟩
  · rw [OnDataRecv_conocido]
    rfl
  · apply taskESPNow_iter_ocioso
    · rw [OnDataRecv_conocido]
    · rw [OnDataRecv_conocido]
      exact hA
    · rw [OnDataRecv_conocido]
      exact hmsg

/-- Witness of C5 (evaluation) on the sample in-range state and an in-range reading. -/
theorem C5_ciclo_siguiente_sin_registro_ni_envio_witness :
    enRango.useWiFi = false ∧ enRango.alertWorthy = false ∧
    alertWorthy 23 51 (((3100 : Fin 65536).val : Nat) : Int) 500 65 = false ∧
    ∃ s1 : Nodo,
      taskESPNow_iter 1 entornoBueno enRango = some s1 ∧ s1.useWiFi = false ∧
      s1.adicion_peers = true ∧
      taskESPNow_iter 1 entornoBueno s1 = some s1 ∧
      (OnDataRecv macSensores ⟨23, 51, 3100, 500, 65⟩ s1).snapshot =
        ((23 : ℚ), (51 : ℚ), (((3100 : Fin 65536).val : Nat) : Int), (500 : ℚ), (65 : ℚ)) ∧
      taskESPNow_iter 1 entornoBueno (OnDataRecv macSensores ⟨23, 51, 3100, 500, 65⟩ s1) =
        some (OnDataRecv macSensores ⟨23, 51, 3100, 500, 65⟩ s1) :=
  have hmsg : alertWorthy 23 51 (((3100 : Fin 65536).val : Nat) : Int) 500 65 = false := by
    simp [alertWorthy]; norm_num; decide
  ⟨enRango_sin_brecha.1, enRango_sin_brecha.2, hmsg,
    C5_ciclo_siguiente_sin_registro_ni_envio 1 1 entornoBueno entornoBueno enRango
      ⟨23, 51, 3100, 500, 65⟩ enRango_sin_brecha.1 enRango_sin_brecha.2 hmsg⟩

/-- C6. For every frame whose sender differs from `macSensores` in at least one of its six
bytes, and every payload, `OnDataRecv` leaves the snapshot as it was and prints
`MAC desconocida`; the state after the call is the state before it with the receive buffer
`incomingReadings` overwritten by the payload and with the report written (the text of the
sender address in `macStr`, the line on the serial port): no other variable changes. -/
theorem C6_remitente_desconocido (src : MAC) (m : struct_message) (s : Nodo)
    (h : src.bytes ≠ macSensores.bytes) :
    (OnDataRecv src m s).snapshot = s.snapshot ∧
    (OnDataRecv src m s).serial = s.serial ++ [Salida.txt "MAC desconocida"] ∧
    OnDataRecv src m s =
      { s with incomingReadings := m
               macStr := fmtMAC src
               serial := s.serial ++ [Salida.txt "MAC desconocida"] } := by
  have hne : src ≠ macSensores := fun hc => h (congrArg MAC.bytes hc)
  rw [OnDataRecv_desconocido src m s hne]
  exact ⟨rfl, rfl, rfl⟩

/-- Witness of C6: a frame from the actuator board with breaching values. -/
theorem C6_remitente_desconocido_witness :
    macActuadores.bytes ≠ macSensores.bytes ∧
    (OnDataRecv macActuadores ⟨35, 90, 100, 5000, 10⟩ enRango).snapshot = enRango.snapshot ∧
    (OnDataRecv macActuadores ⟨35, 90, 100, 5000, 10⟩ enRango).serial =
      enRango.serial ++ [Salida.txt "MAC desconocida"] ∧
    OnDataRecv macActuadores ⟨35, 90, 100, 5000, 10⟩ enRango =
      { enRango with incomingReadings := ⟨35, 90, 100, 5000, 10⟩
                     macStr := fmtMAC macActuadores
                     serial := enRango.serial ++ [Salida.txt "MAC desconocida"] } :=
  ⟨by decide,
    C6_remitente_desconocido macActuadores ⟨35, 90, 100, 5000, 10⟩ enRango (by decide)⟩

/-- C7. For every prior state and every payload `m2` from the sensor board, `OnDataRecv`
sets the five snapshot fields to the fields of `m2`; the resulting snapshot is the same
from every prior state, so after `m1` then `m2` it equals the one obtained from `m2` alone,
and the next `variablesEnvio` computes the command of the rules on the values of `m2`. -/
theorem C7_ultima_escritura_gana (m1 m2 : struct_message) (s : Nodo) :
    (OnDataRecv macSensores m2 s).snapshot =
      (m2.temperatura, m2.humedad, (m2.luminosidad.val : Int), m2.vCO2, m2.humedadSuelo) ∧
    (∀ t : Nodo, (OnDataRecv macSensores m2 t).snapshot = (OnDataRecv macSensores m2 s).snapshot) ∧
    (OnDataRecv macSensores m2 (OnDataRecv macSensores m1 s)).snapshot =
      (OnDataRecv macSensores m2 s).snapshot ∧
    (variablesEnvio (OnDataRecv macSensores m2 (OnDataRecv macSensores m1 s))).readingsToSend =
      reglas m2.temperatura m2.humedad (m2.luminosidad.val : Int) m2.vCO2 m2.humedadSuelo ∧
    (variablesEnvio (OnDataRecv macSensores m2 (OnDataRecv macSensores m1 s))).readingsToSend =
      (variablesEnvio (OnDataRecv macSensores m2 s)).readingsToSend := by
  have hs : ∀ t : Nodo, (OnDataRecv macSensores m2 t).snapshot =
      (m2.temperatura, m2.humedad, (m2.luminosidad.val : Int), m2.vCO2, m2.humedadSuelo) := by
    intro t
    rw [OnDataRecv_conocido]
    rfl
  have hv : ∀ t : Nodo, (variablesEnvio (OnDataRecv macSensores m2 t)).readingsToSend =
      reglas m2.temperatura m2.humedad (m2.luminosidad.val : Int) m2.vCO2 m2.humedadSuelo := by
    intro t
    rw [variablesEnvio_eq, OnDataRecv_conocido]
  refine ⟨hs s, ?_, ?_, hv _, ?_⟩
  · intro t
    rw [hs t, hs s]
  · rw [hs _, hs s]
  · rw [hv _, hv s]

/-- The radio after the guarded block when `adicion_peers` is false. -/
theorem taskESPNow_bloque_radio (e : Entorno) (s : Nodo) (h : s.adicion_peers = false) :
    (taskESPNow_bloque e s).radio = esp_now_register_send_cb (esp_now_register_recv_cb
      (esp_now_add_peer macActuadores (esp_now_add_peer macSensores s.radio).2).2) := by
  have hlog : ∀ t : Nodo, (taskESPNow_log e t).radio = t.radio := by
    intro t
    unfold taskESPNow_log
    simp only []
    rw [logSensorData_eq]
  have hve : ∀ t : Nodo, ((variablesEnvio t).println
      (Salida.txt "despues de funcion envio")).radio = t.radio := by
    intro t; rw [variablesEnvio_eq]; rfl
  have henv : ∀ t : Nodo, (taskESPNow_envio e t).radio = esp_now_register_send_cb t.radio := by
    intro t
    unfold taskESPNow_envio
    simp only []
    split <;> rfl
  have hreg : (taskESPNow_registro s).radio = esp_now_register_recv_cb
      (esp_now_add_peer macActuadores (esp_now_add_peer macSensores s.radio).2).2 := by
    unfold taskESPNow_registro
    dsimp only
    rw [addPeer_radio, addPeer_radio]
  rw [taskESPNow_bloque_pend e s h]
  dsimp only
  rw [henv, hve, hlog, hreg]

/-- After the guarded block has run on an initialised context, `OnDataRecv` is registered. -/
theorem taskESPNow_bloque_recvCb (e : Entorno) (s : Nodo) (h : s.adicion_peers = false)
    (hr : s.radio.espnow = true) :
    (taskESPNow_bloque e s).radio.espnow = true ∧ (taskESPNow_bloque e s).radio.recvCb = true := by
  rw [taskESPNow_bloque_radio e s h]
  have h1 := esp_now_add_peer_frame macSensores s.radio
  have h2 := esp_now_add_peer_frame macActuadores (esp_now_add_peer macSensores s.radio).2
  generalize (esp_now_add_peer macSensores s.radio).2 = r1 at h1 h2
  generalize (esp_now_add_peer macActuadores r1).2 = r2 at h2
  have e1 : r1.espnow = true := by rw [h1]; exact hr
  have e2 : r2.espnow = true := by rw [h2]; exact e1
  simp [esp_now_register_send_cb, esp_now_register_recv_cb, e2]

/-- Delivery of a frame from the sensor board while the callback is registered. -/
theorem recibir_conocido (m : struct_message) (s : Nodo)
    (hr : s.radio.espnow = true) (hc : s.radio.recvCb = true) :
    recibir macSensores m s =
      { s with incomingReadings := m
               macStr := fmtMAC macSensores
               temp := m.temperatura
               hum := m.humedad
               lum := (m.luminosidad.val : Int)
               CO2 := m.vCO2
               valHumsuelo := m.humedadSuelo
               serial := s.serial ++
                 [Salida.txt "Temperatura: ", Salida.real m.temperatura,
                  Salida.txt "Humedad: ", Salida.real m.humedad,
                  Salida.txt "Luz: ", Salida.entero m.luminosidad.val,
                  Salida.txt "CO2: ", Salida.real m.vCO2,
                  Salida.txt "Humedad Suelo: ", Salida.real m.humedadSuelo] } := by
  unfold recibir
  rw [hr, hc, OnDataRecv_conocido]
  rfl

/-- A breach episode from the state `t` on which the switching branch of `switchToWiFi`
starts, up to the end of the following iteration of `taskWiFi`: the alert, if any, is the
one of the snapshot that `t` holds. -/
theorem episodio_desde (fuel k n : Nat) (e e2 : Entorno) (t : Nodo)
    (hu : t.useWiFi = true) (he : e.retardoWiFi = some k) (hk : k < fuel) :
    ∃ s1 s2 : Nodo, switchToWiFi_then fuel e t = some s1 ∧
      taskWiFi_iter (n + 1) e2 s1 = some s2 ∧
      alertas s2.efectos = alertas t.efectos ++
        (if t.alertWorthy then
          [(CHAT_ID, textoAlarma t.temp t.hum t.lum t.CO2, e2.telegramOk)] else []) := by
  refine ⟨_, _, switchToWiFi_then_eq fuel k e t he hk,
    taskWiFi_iter_conectado_eq n e2 _ hu rfl, ?_⟩
  dsimp only
  have ha : ∀ (r : Radio) (b : Bool) (ef : List Efecto) (se : List Salida),
      Nodo.alertWorthy { t with radio := r, adicion_peers := b, efectos := ef, serial := se } =
        t.alertWorthy := fun _ _ _ _ => rfl
  rw [ha]
  by_cases hb : t.alertWorthy = true
  · simp [hb, alertas_append, alertas]
  · simp [hb, alertas_append, alertas]

/-- A breach episode in which a frame `m` of the sensor board is delivered after the test of
`switchToWiFi` and before its switching branch runs: the alert, if any, is the one of the
snapshot of `m`. -/
theorem episodio_con_ingreso (fuel k n : Nat) (e e2 : Entorno) (sA : Nodo) (m : struct_message)
    (hu : sA.useWiFi = true) (hr : sA.radio.espnow = true) (hc : sA.radio.recvCb = true)
    (he : e.retardoWiFi = some k) (hk : k < fuel) :
    ∃ s1 s2 : Nodo, switchToWiFi_then fuel e (recibir macSensores m sA) = some s1 ∧
      taskWiFi_iter (n + 1) e2 s1 = some s2 ∧
      alertas s2.efectos = alertas sA.efectos ++
        (if alertWorthy m.temperatura m.humedad (m.luminosidad.val : Int) m.vCO2 m.humedadSuelo
         then [(CHAT_ID, textoAlarma m.temperatura m.humedad (m.luminosidad.val : Int) m.vCO2,
                e2.telegramOk)]
         else []) := by
  have hrec := recibir_conocido m sA hr hc
  obtain ⟨s1, s2, h1, h2, h3⟩ := episodio_desde fuel k n e e2 (recibir macSensores m sA)
    (by rw [hrec]; exact hu) he hk
  refine ⟨s1, s2, h1, h2, ?_⟩
  rw [h3, hrec]
  rfl

/-- C9 (amended). Let the switching branch of `switchToWiFi` be entered on a state `sA` (the
test held on its snapshot), with the receive callback registered, and let the access point
answer. If nothing is ingested before `generacionAlarma` runs, exactly one alert is sent and
its text is formatted from the temperature, humidity, light and CO2 of `sA`. If a frame `m`
of the sensor board is ingested after the test, the alert is sent exactly when the snapshot
of `m` is alertWorthy, and its text is formatted from the values of `m`: `generacionAlarma`
reads and tests the globals as they are when it runs. -/
theorem C9_alerta_lee_la_instantanea_vigente (fuel k fuel2 : Nat) (e e2 : Entorno) (sA : Nodo)
    (m : struct_message)
    (hu : sA.useWiFi = true) (hdec : switchToWiFi_cond sA = true)
    (hr : sA.radio.espnow = true) (hc : sA.radio.recvCb = true)
    (he : e.retardoWiFi = some k) (hk : k < fuel) (hf : 0 < fuel2) :
    (∃ s1 s2 : Nodo, switchToWiFi fuel e sA = some s1 ∧
      taskWiFi_iter fuel2 e2 s1 = some s2 ∧
      alertas s2.efectos = alertas sA.efectos ++
        [(CHAT_ID, textoAlarma sA.temp sA.hum sA.lum sA.CO2, e2.telegramOk)]) ∧
    (∃ s1 s2 : Nodo, switchToWiFi_then fuel e (recibir macSensores m sA) = some s1 ∧
      taskWiFi_iter fuel2 e2 s1 = some s2 ∧
      alertas s2.efectos = alertas sA.efectos ++
        (if alertWorthy m.temperatura m.humedad (m.luminosidad.val : Int) m.vCO2 m.humedadSuelo
         then [(CHAT_ID, textoAlarma m.temperatura m.humedad (m.luminosidad.val : Int) m.vCO2,
                e2.telegramOk)]
         else [])) := by
  obtain ⟨n, rfl⟩ : ∃ n, fuel2 = n + 1 := ⟨fuel2 - 1, by omega⟩
  constructor
  · obtain ⟨s1, s2, h1, h2, h3⟩ := episodio_desde fuel k n e e2 sA hu he hk
    have hb : sA.alertWorthy = true := hdec
    rw [if_pos hb] at h3
    refine ⟨s1, s2, ?_, h2, h3⟩
    unfold switchToWiFi
    rw [if_pos hdec, h1]
  · exact episodio_con_ingreso fuel k n e e2 sA m hu hr hc he hk

/-- Facts about that state: it holds the snapshot with temperature 30, the test of
`switchToWiFi` holds on it, the ESP-NOW context is up with `OnDataRecv` registered, and no
alert has been sent. -/
theorem calienteEnLaPrueba_hechos :
    calienteEnLaPrueba.snapshot = ((30 : ℚ), (50 : ℚ), (3000 : Int), (400 : ℚ), (70 : ℚ)) ∧
    calienteEnLaPrueba.useWiFi = true ∧
    switchToWiFi_cond calienteEnLaPrueba = true ∧
    calienteEnLaPrueba.radio.espnow = true ∧
    calienteEnLaPrueba.radio.recvCb = true ∧
    alertas calienteEnLaPrueba.efectos = [] := by
  obtain ⟨g1, g2, g3, g4, g5, -⟩ := marco_campos (taskESPNow_bloque_marco entornoBueno caliente)
  have hB := marco_alertWorthy (taskESPNow_bloque_marco entornoBueno caliente)
  obtain ⟨r1, r2⟩ := taskESPNow_bloque_recvCb entornoBueno caliente rfl rfl
  obtain ⟨nuevos, h1, h2, -⟩ := taskESPNow_bloque_nuevos entornoBueno caliente
  unfold calienteEnLaPrueba
  generalize taskESPNow_bloque entornoBueno caliente = B at g1 g2 g3 g4 g5 hB r1 r2 h1
  refine ⟨?_, rfl, ?_, r1, r2, ?_⟩
  · show (B.temp, B.hum, B.lum, B.CO2, B.valHumsuelo) = _
    rw [g1, g2, g3, g4, g5]
    rfl
  · show B.alertWorthy = true
    rw [hB]
    exact caliente_brecha.2
  · show alertas B.efectos = []
    rw [h1, alertas_append, h2]
    rfl

/-- Witness of C9 (amended): the first iteration from the sample state with temperature 30,
and an in-range reading ingested after the test. -/
theorem C9_alerta_lee_la_instantanea_vigente_witness :
    calienteEnLaPrueba.useWiFi = true ∧ switchToWiFi_cond calienteEnLaPrueba = true ∧
    calienteEnLaPrueba.radio.espnow = true ∧ calienteEnLaPrueba.radio.recvCb = true ∧
    entornoBueno.retardoWiFi = some 2 ∧ 2 < 3 ∧ 0 < 1 ∧
    (∃ s1 s2 : Nodo,
      switchToWiFi 3 entornoBueno calienteEnLaPrueba = some s1 ∧
      taskWiFi_iter 1 entornoBueno s1 = some s2 ∧
      alertas s2.efectos = alertas calienteEnLaPrueba.efectos ++
        [(CHAT_ID, textoAlarma calienteEnLaPrueba.temp calienteEnLaPrueba.hum
            calienteEnLaPrueba.lum calienteEnLaPrueba.CO2, entornoBueno.telegramOk)]) ∧
    (∃ s1 s2 : Nodo,
      switchToWiFi_then 3 entornoBueno
        (recibir macSensores ⟨22, 50, 3000, 400, 70⟩ calienteEnLaPrueba) = some s1 ∧
      taskWiFi_iter 1 entornoBueno s1 = some s2 ∧
      alertas s2.efectos = alertas calienteEnLaPrueba.efectos ++
        (if alertWorthy (struct_message.temperatura ⟨22, 50, 3000, 400, 70⟩)
            (struct_message.humedad ⟨22, 50, 3000, 400, 70⟩)
            ((struct_message.luminosidad ⟨22, 50, 3000, 400, 70⟩).val : Int)
            (struct_message.vCO2 ⟨22, 50, 3000, 400, 70⟩)
            (struct_message.humedadSuelo ⟨22, 50, 3000, 400, 70⟩)
         then [(CHAT_ID, textoAlarma (struct_message.temperatura ⟨22, 50, 3000, 400, 70⟩)
            (struct_message.humedad ⟨22, 50, 3000, 400, 70⟩)
            ((struct_message.luminosidad ⟨22, 50, 3000, 400, 70⟩).val : Int)
            (struct_message.vCO2 ⟨22, 50, 3000, 400, 70⟩), entornoBueno.telegramOk)]
         else [])) :=
  ⟨calienteEnLaPrueba_hechos.2.1, calienteEnLaPrueba_hechos.2.2.1,
    calienteEnLaPrueba_hechos.2.2.2.1, calienteEnLaPrueba_hechos.2.2.2.2.1,
    rfl, by decide, by decide,
    C9_alerta_lee_la_instantanea_vigente 3 2 1 entornoBueno entornoBueno
      calienteEnLaPrueba ⟨22, 50, 3000, 400, 70⟩
      calienteEnLaPrueba_hechos.2.1 calienteEnLaPrueba_hechos.2.2.1
      calienteEnLaPrueba_hechos.2.2.2.1 calienteEnLaPrueba_hechos.2.2.2.2.1
      rfl (by decide) (by decide)⟩

/-- C9 (counterexample). In the first iteration of `taskESPNow` from the sample state with
temperature 30, the test of `switchToWiFi` holds on the snapshot (30, 50, 3000, 400, 70).
If the in-range reading (22, 50, 3000, 400, 70) is ingested after the test, the episode
runs to the end of the iteration of `taskWiFi` and no alert at all is sent; if the reading
(35, 50, 3000, 400, 70) is ingested instead, the alert sent carries the text of temperature
35, which is not the text of the snapshot that decided the transition. -/
theorem C9_la_alerta_no_es_de_la_instantanea_del_cambio :
    calienteEnLaPrueba.snapshot = ((30 : ℚ), (50 : ℚ), (3000 : Int), (400 : ℚ), (70 : ℚ)) ∧
    switchToWiFi_cond calienteEnLaPrueba = true ∧
    (∃ s1 s2 : Nodo,
      switchToWiFi_then 3 entornoBueno
        (recibir macSensores ⟨22, 50, 3000, 400, 70⟩ calienteEnLaPrueba) = some s1 ∧
      taskWiFi_iter 1 entornoBueno s1 = some s2 ∧ alertas s2.efectos = []) ∧
    (∃ s1 s2 : Nodo,
      switchToWiFi_then 3 entornoBueno
        (recibir macSensores ⟨35, 50, 3000, 400, 70⟩ calienteEnLaPrueba) = some s1 ∧
      taskWiFi_iter 1 entornoBueno s1 = some s2 ∧
      alertas s2.efectos = [(CHAT_ID, textoAlarma 35 50 3000 400, true)]) ∧
    textoAlarma 35 50 3000 400 ≠ textoAlarma 30 50 3000 400 := by
  obtain ⟨h1, h2, h3, h4, h5, h6⟩ := calienteEnLaPrueba_hechos
  refine ⟨h1, h3, ?_, ?_, by decide!⟩
  · obtain ⟨s1, s2, e1, e2, e3⟩ := episodio_con_ingreso 3 2 0 entornoBueno entornoBueno
      calienteEnLaPrueba ⟨22, 50, 3000, 400, 70⟩ h2 h4 h5 rfl (by decide)
    refine ⟨s1, s2, e1, e2, ?_⟩
    have hno : Central.alertWorthy 22 50 (((3000 : Fin 65536).val : Nat) : Int) 400 70 = false := by
      simp [alertWorthy]; norm_num; decide
    simp only [] at e3
    rw [hno, h6] at e3
    exact e3
  · obtain ⟨s1, s2, e1, e2, e3⟩ := episodio_con_ingreso 3 2 0 entornoBueno entornoBueno
      calienteEnLaPrueba ⟨35, 50, 3000, 400, 70⟩ h2 h4 h5 rfl (by decide)
    refine ⟨s1, s2, e1, e2, ?_⟩
    have hsi : Central.alertWorthy 35 50 (((3000 : Fin 65536).val : Nat) : Int) 400 70 = true := by
      simp [alertWorthy]; norm_num
    simp only [] at e3
    rw [hsi, h6] at e3
    exact e3

/-- A string has no bytes exactly when it is empty. -/
theorem utf8ByteSize_eq_zero (t : String) : t.utf8ByteSize = 0 ↔ t = "" := by
  constructor
  · intro h
    cases t with
    | mk l =>
      cases l with
      | nil => rfl
      | cons c cs =>
        exfalso
        have hp := Char.utf8Size_pos c
        simp only [String.utf8ByteSize, String.utf8ByteSize.go] at h
        omega
  · intro h
    rw [h]
    rfl

/-- The timestamp of an in-range time: nothing is cut by the 20-byte buffer. -/
theorem getTimestampFromRTC_forma (now : DateTime)
    (hy : now.year < 10000) (hmo : now.month < 100) (hdy : now.day < 100)
    (hho : now.hour < 100) (hmi : now.minute < 100) (hse : now.second < 100) :
    getTimestampFromRTC now =
      (printf_0d 4 now.year ++ "-" ++ printf_0d 2 now.month ++ "-" ++ printf_0d 2 now.day) ++
        " " ++ printf_0d 2 now.hour ++
        (":" ++ printf_0d 2 now.minute ++ ":" ++ printf_0d 2 now.second) := by
  have l1 := printf_0d_length 4 now.year (by omega)
  have l2 := printf_0d_length 2 now.month (by omega)
  have l3 := printf_0d_length 2 now.day (by omega)
  have l4 := printf_0d_length 2 now.hour (by omega)
  have l5 := printf_0d_length 2 now.minute (by omega)
  have l6 := printf_0d_length 2 now.second (by omega)
  unfold getTimestampFromRTC
  apply String.ext
  simp only [String.data_append, List.append_assoc]
  apply List.take_of_length_le
  simp only [List.length_append]
  have a1 : (printf_0d 4 now.year).data.length = 4 := l1
  have a2 : (printf_0d 2 now.month).data.length = 2 := l2
  have a3 : (printf_0d 2 now.day).data.length = 2 := l3
  have a4 : (printf_0d 2 now.hour).data.length = 2 := l4
  have a5 : (printf_0d 2 now.minute).data.length = 2 := l5
  have a6 : (printf_0d 2 now.second).data.length = 2 := l6
  rw [a1, a2, a3, a4, a5, a6]
  decide

/-- The path of the log file for an in-range time. -/
theorem getFilePath_RTC (now : DateTime)
    (hy : now.year < 10000) (hmo : now.month < 100) (hdy : now.day < 100)
    (hho : now.hour < 100) (hmi : now.minute < 100) (hse : now.second < 100) :
    getFilePath (getTimestampFromRTC now) =
      "/" ++ (printf_0d 4 now.year ++ "-" ++ printf_0d 2 now.month ++ "-" ++
        printf_0d 2 now.day) ++ "/" ++ printf_0d 2 now.hour ++ "/data.csv" := by
  have l1 := printf_0d_length 4 now.year (by omega)
  have l2 := printf_0d_length 2 now.month (by omega)
  have l3 := printf_0d_length 2 now.day (by omega)
  have l4 := printf_0d_length 2 now.hour (by omega)
  have hd : (printf_0d 4 now.year ++ "-" ++ printf_0d 2 now.month ++ "-" ++
      printf_0d 2 now.day).length = 10 := by
    simp only [String.length_append, l1, l2, l3]
    rfl
  obtain ⟨s1, s2⟩ := substring_fecha_hora _ _
    (":" ++ printf_0d 2 now.minute ++ ":" ++ printf_0d 2 now.second) hd l4
  rw [getTimestampFromRTC_forma now hy hmo hdy hho hmi hse]
  unfold getFilePath getFolderPath
  simp only []
  rw [s1, s2]


/-- Creating a directory changes neither the files nor the state of the card. -/
theorem SD.mkdir_marco (sd : SD) (p : String) :
    (sd.mkdir p).archivos = sd.archivos ∧ (sd.mkdir p).montada = sd.montada ∧
    (sd.mkdir p).escribible = sd.escribible := by
  unfold SD.mkdir
  split <;> exact ⟨rfl, rfl, rfl⟩

/-- The loop of `ensureDirectoriesExist` changes neither the files nor the state of the card. -/
theorem ensureDirectoriesExist_for_marco (fp : String) (is : List Nat) :
    ∀ sd : SD, (ensureDirectoriesExist_for fp is sd).archivos = sd.archivos ∧
      (ensureDirectoriesExist_for fp is sd).montada = sd.montada ∧
      (ensureDirectoriesExist_for fp is sd).escribible = sd.escribible := by
  induction is with
  | nil => intro sd; exact ⟨rfl, rfl, rfl⟩
  | cons i is ih =>
    intro sd
    unfold ensureDirectoriesExist_for
    simp only []
    split
    · split
      · obtain ⟨a, b, c⟩ := ih (sd.mkdir (substring fp 0 i))
        obtain ⟨a2, b2, c2⟩ := SD.mkdir_marco sd (substring fp 0 i)
        exact ⟨a.trans a2, b.trans b2, c.trans c2⟩
      · exact ih sd
    · exact ih sd

/-- Function `ensureDirectoriesExist` changes neither the files nor the state of the card. -/
theorem ensureDirectoriesExist_marco (fp : String) (sd : SD) :
    (ensureDirectoriesExist fp sd).archivos = sd.archivos ∧
    (ensureDirectoriesExist fp sd).montada = sd.montada ∧
    (ensureDirectoriesExist fp sd).escribible = sd.escribible := by
  obtain ⟨a, b, c⟩ := ensureDirectoriesExist_for_marco fp (List.range' 1 (fp.length - 1)) sd
  unfold ensureDirectoriesExist
  simp only []
  split
  · obtain ⟨a2, b2, c2⟩ := SD.mkdir_marco
      (ensureDirectoriesExist_for fp (List.range' 1 (fp.length - 1)) sd) fp
    exact ⟨a2.trans a, b2.trans b, c2.trans c⟩
  · exact ⟨a, b, c⟩

/-- A successful `println` writes at least the line terminator. -/
theorem println_bytes_ne_zero (t : String) : (t ++ "\r\n").utf8ByteSize ≠ 0 := by
  intro h
  have h2 := (utf8ByteSize_eq_zero _).1 h
  have h3 := congrArg String.length h2
  simp only [String.length_append] at h3
  have : "\r\n".length = 2 := rfl
  have : "".length = 0 := rfl
  omega


/-- Opening for append on a working card: the file exists afterwards with its previous content. -/
theorem SD.openAppend_montada (sd : SD) (path : String) (h : sd.montada = true) :
    ∃ sd2 : SD, sd.openAppend path = some sd2 ∧ sd2.escribible = sd.escribible ∧
      sd2.archivos path = some ((sd.archivos path).getD "") ∧
      ∀ p : String, p ≠ path → sd2.archivos p = sd.archivos p := by
  unfold SD.openAppend
  rw [if_pos h]
  cases hc : sd.archivos path with
  | some c => exact ⟨sd, rfl, rfl, by rw [hc]; rfl, fun _ _ => rfl⟩
  | none =>
    refine ⟨_, rfl, rfl, ?_, ?_⟩
    · simp
    · intro p hp
      simp [hp, hc]

/-- A `println` on a writable card appends the text and the line terminator. -/
theorem SD.filePrintln_escribible (sd : SD) (path text : String) (h : sd.escribible = true) :
    (sd.filePrintln path text).1 ≠ 0 ∧
    (sd.filePrintln path text).2.escribible = true ∧
    (sd.filePrintln path text).2.archivos path =
      some ((sd.archivos path).getD "" ++ text ++ "\r\n") ∧
    ∀ p : String, p ≠ path → (sd.filePrintln path text).2.archivos p = sd.archivos p := by
  unfold SD.filePrintln
  rw [if_pos h]
  refine ⟨println_bytes_ne_zero text, h, ?_, ?_⟩
  · simp
  · intro p hp
    simp [hp]

/-- A `println` on a card that rejects writes writes nothing and returns 0. -/
theorem SD.filePrintln_protegida (sd : SD) (path text : String) (h : sd.escribible = false) :
    sd.filePrintln path text = (0, sd) := by
  unfold SD.filePrintln
  rw [h]
  rfl

/-- The header statement of `logSensorData` on a writable card. -/
theorem SD.encabezado_si_vacio (sd : SD) (path previo : String)
    (he : sd.escribible = true) (hp : sd.archivos path = some previo) :
    (if sd.size path == 0 then (sd.filePrintln path encabezado).2 else sd).escribible = true ∧
    (if sd.size path == 0 then (sd.filePrintln path encabezado).2 else sd).archivos path =
      some (previo ++ (if previo = "" then encabezado ++ "\r\n" else "")) ∧
    ∀ p : String, p ≠ path →
      (if sd.size path == 0 then (sd.filePrintln path encabezado).2 else sd).archivos p =
        sd.archivos p := by
  have hs : sd.size path = previo.utf8ByteSize := by
    unfold SD.size
    rw [hp]
    rfl
  obtain ⟨-, w2, w3, w4⟩ := SD.filePrintln_escribible sd path encabezado he
  by_cases hv : previo = ""
  · have h0 : (sd.size path == 0) = true := by
      rw [hs, hv]
      rfl
    rw [if_pos h0, if_pos hv]
    refine ⟨w2, ?_, w4⟩
    rw [w3, hp, hv]
    rfl
  · have h0 : ¬ (sd.size path == 0) = true := by
      rw [hs]
      intro hc
      exact hv ((utf8ByteSize_eq_zero previo).1 (by simpa using hc))
    rw [if_neg h0, if_neg hv]
    refine ⟨he, ?_, fun _ _ => rfl⟩
    rw [hp]
    simp

/-- Outcome of `logSensorData`: it succeeds exactly on a working, writable card, and then appends the header if the file was empty and the line. -/
theorem logSensorData_resultado (ts nodeId : String) (rssi : Int) (data : SensorData) (s : Nodo) :
    (logSensorData ts nodeId rssi data s).1 = (s.sd.montada && s.sd.escribible) ∧
    ((logSensorData ts nodeId rssi data s).1 = true →
      (logSensorData ts nodeId rssi data s).2.sd.archivos (getFilePath ts) =
        some ((s.sd.archivos (getFilePath ts)).getD "" ++
          (if (s.sd.archivos (getFilePath ts)).getD "" = "" then encabezado ++ "\r\n" else "") ++
          csvLine ts nodeId rssi data ++ "\r\n") ∧
      ∀ p : String, p ≠ getFilePath ts →
        (logSensorData ts nodeId rssi data s).2.sd.archivos p = s.sd.archivos p) := by
  obtain ⟨f1, f2, f3⟩ := ensureDirectoriesExist_marco (getFolderPath ts) s.sd
  unfold logSensorData
  simp only []
  generalize ensureDirectoriesExist (getFolderPath ts) s.sd = sd1 at f1 f2 f3
  rw [← f1, ← f2, ← f3]
  generalize getFilePath ts = path
  generalize csvLine ts nodeId rssi data = linea
  clear f1 f2 f3
  by_cases hm : sd1.montada = true
  · obtain ⟨sd2, o1, o2, o3, o4⟩ := SD.openAppend_montada sd1 path hm
    simp only [o1]
    by_cases he : sd1.escribible = true
    · obtain ⟨c1, c2, c3⟩ := SD.encabezado_si_vacio sd2 path _ (o2.trans he) o3
      generalize (if sd2.size path == 0 then (sd2.filePrintln path encabezado).2 else sd2) = sd3
        at c1 c2 c3
      obtain ⟨w1, -, w3, w4⟩ := SD.filePrintln_escribible sd3 path linea c1
      generalize sd3.filePrintln path linea = res at w1 w3 w4
      have hres : ¬ (res.1 == 0) = true := by simpa using w1
      rw [if_neg hres, hm, he]
      refine ⟨rfl, fun _ => ⟨?_, ?_⟩⟩
      · show res.2.archivos path = _
        rw [w3, c2]
        simp [String.append_assoc]
      · intro p hp
        show res.2.archivos p = _
        rw [w4 p hp, c3 p hp, o4 p hp]
    · have he2 : sd1.escribible = false := by simpa using he
      have c1 : (if sd2.size path == 0 then (sd2.filePrintln path encabezado).2 else sd2).escribible
          = false := by
        rw [SD.filePrintln_protegida sd2 path encabezado (o2.trans he2)]
        split <;> exact o2.trans he2
      generalize (if sd2.size path == 0 then (sd2.filePrintln path encabezado).2 else sd2) = sd3
        at c1
      rw [SD.filePrintln_protegida sd3 path linea c1, hm, he2]
      simp
  · have hm2 : sd1.montada = false := by simpa using hm
    have o1 : sd1.openAppend path = none := by
      unfold SD.openAppend
      rw [hm2]
      rfl
    simp only [o1]
    rw [hm2]
    simp


/-- The character of a decimal digit is a digit. -/
theorem digitChar_isDigit (n : Nat) (h : n < 10) : (Nat.digitChar n).isDigit = true := by
  interval_cases n <;> rfl

/-- Shape and value of the text of `String(value, 2)`. -/
theorem String_float2_forma (q : ℚ) :
    String_float2 q = (if q < 0 then "-" else "") ++ Nat.repr (centesimas q / 100) ++ "." ++
      String.mk [Nat.digitChar (centesimas q % 100 / 10), Nat.digitChar (centesimas q % 10)] ∧
    (Nat.digitChar (centesimas q % 100 / 10)).isDigit = true ∧
    (Nat.digitChar (centesimas q % 10)).isDigit = true ∧
    (centesimas q : ℚ) ≤ |q| * 100 + 1 / 2 ∧ |q| * 100 + 1 / 2 < (centesimas q : ℚ) + 1 := by
  have hd : digitosFijos 2 (centesimas q % 100) =
      [Nat.digitChar (centesimas q % 100 / 10), Nat.digitChar (centesimas q % 10)] := by
    have e1 : centesimas q % 100 / 10 % 10 = centesimas q % 100 / 10 := by omega
    have e2 : centesimas q % 100 % 10 = centesimas q % 10 := by omega
    simp [digitosFijos, e1, e2]
  have hden : (0 : ℚ) < (q.den : ℚ) := by exact_mod_cast q.den_pos
  have habs : |q| = (q.num.natAbs : ℚ) / (q.den : ℚ) := by
    conv_lhs => rw [← Rat.num_div_den q]
    rw [abs_div, Nat.abs_cast, Nat.cast_natAbs, Int.cast_abs]
  have hlo : 2 * q.den * centesimas q ≤ 200 * q.num.natAbs + q.den :=
    Nat.mul_div_le _ _
  have hhi : 200 * q.num.natAbs + q.den < 2 * q.den * (centesimas q + 1) := by
    have := Nat.lt_mul_div_succ (200 * q.num.natAbs + q.den) (by have := q.den_pos; omega : 0 < 2 * q.den)
    simpa [centesimas] using this
  refine ⟨?_, digitChar_isDigit _ (by omega), digitChar_isDigit _ (by omega), ?_, ?_⟩
  · unfold String_float2 dosDecimales
    rw [hd]
    by_cases h : q < 0 <;> simp [h]
  · rw [habs]
    have h1 : ((2 * q.den * centesimas q : Nat) : ℚ) ≤ ((200 * q.num.natAbs + q.den : Nat) : ℚ) := by
      exact_mod_cast hlo
    push_cast at h1
    have e : (q.num.natAbs : ℚ) / (q.den : ℚ) * 100 + 1 / 2 =
        (200 * (q.num.natAbs : ℚ) + (q.den : ℚ)) / (2 * (q.den : ℚ)) := by
      field_simp
      ring
    rw [e, le_div_iff₀ (by positivity)]
    linarith
  · rw [habs]
    have h1 : ((200 * q.num.natAbs + q.den : Nat) : ℚ) <
        ((2 * q.den * (centesimas q + 1) : Nat) : ℚ) := by
      exact_mod_cast hhi
    push_cast at h1
    have e : (q.num.natAbs : ℚ) / (q.den : ℚ) * 100 + 1 / 2 =
        (200 * (q.num.natAbs : ℚ) + (q.den : ℚ)) / (2 * (q.den : ℚ)) := by
      field_simp
      ring
    rw [e, div_lt_iff₀ (by positivity)]
    linarith


/-- C8. For every time `now` read from the RTC whose fields fit the widths of the format
(year below 10000, the others below 100), so that `getTimestampFromRTC` yields
`YYYY-MM-DD HH:MM:SS`, and for every record: the path of `getFilePath` is
`/YYYY-MM-DD/HH/data.csv`; the line built is
`timestamp,nodeId,rssi,temp,hum,light,co2ppm,soilMoisture`, where each of the four real
readings is printed by `String(value, 2)` as sign, integer part, point and exactly two
digits (the value rounded to hundredths), and the light as an integer; and when
`logSensorData` returns `true` the file at that path holds its previous content, followed by
the header line if and only if that content was empty, followed by the line, every other
file being unchanged. For 2024-03-05 14:22:10, node NODE1, rssi -60 and the record
(22.5, 55.0, 1200, 410.0, 70.0) the timestamp, the path and the line are the ones of the
example of the specification. -/
theorem C8_formato_del_registro (now : DateTime) (nodeId : String) (rssi : Int)
    (data : SensorData) (s : Nodo)
    (hy : now.year < 10000) (hmo : now.month < 100) (hdy : now.day < 100)
    (hho : now.hour < 100) (hmi : now.minute < 100) (hse : now.second < 100)
    (hok : (logSensorData (getTimestampFromRTC now) nodeId rssi data s).1 = true) :
    getTimestampFromRTC now =
      printf_0d 4 now.year ++ "-" ++ printf_0d 2 now.month ++ "-" ++ printf_0d 2 now.day ++
        " " ++ printf_0d 2 now.hour ++ ":" ++ printf_0d 2 now.minute ++ ":" ++
        printf_0d 2 now.second ∧
    getFilePath (getTimestampFromRTC now) =
      "/" ++ (printf_0d 4 now.year ++ "-" ++ printf_0d 2 now.month ++ "-" ++
        printf_0d 2 now.day) ++ "/" ++ printf_0d 2 now.hour ++ "/data.csv" ∧
    csvLine (getTimestampFromRTC now) nodeId rssi data =
      getTimestampFromRTC now ++ "," ++ nodeId ++ "," ++ toString rssi ++ "," ++
        String_float2 data.Stemperatura ++ "," ++ String_float2 data.Shumedad ++ "," ++
        Nat.repr data.Sluminosidad.val ++ "," ++ String_float2 data.SvCO2 ++ "," ++
        String_float2 data.ShumedadSuelo ∧
    (∀ q : ℚ,
      String_float2 q = (if q < 0 then "-" else "") ++ Nat.repr (centesimas q / 100) ++ "." ++
        String.mk [Nat.digitChar (centesimas q % 100 / 10), Nat.digitChar (centesimas q % 10)] ∧
      (Nat.digitChar (centesimas q % 100 / 10)).isDigit = true ∧
      (Nat.digitChar (centesimas q % 10)).isDigit = true ∧
      (centesimas q : ℚ) ≤ |q| * 100 + 1 / 2 ∧ |q| * 100 + 1 / 2 < (centesimas q : ℚ) + 1) ∧
    (logSensorData (getTimestampFromRTC now) nodeId rssi data s).2.sd.archivos
        (getFilePath (getTimestampFromRTC now)) =
      some ((s.sd.archivos (getFilePath (getTimestampFromRTC now))).getD "" ++
        (if (s.sd.archivos (getFilePath (getTimestampFromRTC now))).getD "" = ""
          then encabezado ++ "\r\n" else "") ++
        csvLine (getTimestampFromRTC now) nodeId rssi data ++ "\r\n") ∧
    (∀ p : String, p ≠ getFilePath (getTimestampFromRTC now) →
      (logSensorData (getTimestampFromRTC now) nodeId rssi data s).2.sd.archivos p =
        s.sd.archivos p) ∧
    encabezado = "timestamp,nodeId,rssi,temp,hum,light,co2ppm,soilMoisture" ∧
    getTimestampFromRTC ⟨2024, 3, 5, 14, 22, 10⟩ = "2024-03-05 14:22:10" ∧
    getFilePath "2024-03-05 14:22:10" = "/2024-03-05/14/data.csv" ∧
    csvLine "2024-03-05 14:22:10" "NODE1" (-60) ⟨22.5, 55, 1200, 410, 70⟩ =
      "2024-03-05 14:22:10,NODE1,-60,22.50,55.00,1200,410.00,70.00" := by
  obtain ⟨r1, r2⟩ := (logSensorData_resultado (getTimestampFromRTC now) nodeId rssi data s).2 hok
  refine ⟨?_, getFilePath_RTC now hy hmo hdy hho hmi hse, rfl, String_float2_forma, r1, r2, rfl,
    by decide, by decide, by decide!⟩
  rw [getTimestampFromRTC_forma now hy hmo hdy hho hmi hse]
  simp only [String.append_assoc]

/-- Witness of C8: the example of the specification, logged by the node in its initial
state on an empty card; the file then holds the header line and the line of the example. -/
theorem C8_formato_del_registro_witness :
    DateTime.year ⟨2024, 3, 5, 14, 22, 10⟩ < 10000 ∧ DateTime.month ⟨2024, 3, 5, 14, 22, 10⟩ < 100 ∧
    DateTime.day ⟨2024, 3, 5, 14, 22, 10⟩ < 100 ∧ DateTime.hour ⟨2024, 3, 5, 14, 22, 10⟩ < 100 ∧
    DateTime.minute ⟨2024, 3, 5, 14, 22, 10⟩ < 100 ∧
    DateTime.second ⟨2024, 3, 5, 14, 22, 10⟩ < 100 ∧
    (logSensorData (getTimestampFromRTC ⟨2024, 3, 5, 14, 22, 10⟩) "NODE1" (-60)
      ⟨22.5, 55, 1200, 410, 70⟩ inicial).1 = true ∧
    (logSensorData (getTimestampFromRTC ⟨2024, 3, 5, 14, 22, 10⟩) "NODE1" (-60)
        ⟨22.5, 55, 1200, 410, 70⟩ inicial).2.sd.archivos "/2024-03-05/14/data.csv" =
      some ("timestamp,nodeId,rssi,temp,hum,light,co2ppm,soilMoisture\r\n" ++
        "2024-03-05 14:22:10,NODE1,-60,22.50,55.00,1200,410.00,70.00\r\n") := by
  have hok : (logSensorData (getTimestampFromRTC ⟨2024, 3, 5, 14, 22, 10⟩) "NODE1" (-60)
      ⟨22.5, 55, 1200, 410, 70⟩ inicial).1 = true :=
    (logSensorData_resultado _ _ _ _ _).1.trans rfl
  obtain ⟨-, -, -, -, h5, -, -, h8, h9, h10⟩ :=
    C8_formato_del_registro ⟨2024, 3, 5, 14, 22, 10⟩ "NODE1" (-60) ⟨22.5, 55, 1200, 410, 70⟩
      inicial (by decide) (by decide) (by decide) (by decide) (by decide) (by decide) hok
  refine ⟨by decide, by decide, by decide, by decide, by decide, by decide, hok, ?_⟩
  rw [h8, h9, h10] at h5
  rw [h8, h5]
  have hv : (inicial.sd.archivos "/2024-03-05/14/data.csv").getD "" = "" := rfl
  rw [hv, if_pos rfl]
  decide

/-- One status poll changes nothing but the link, and a positive answer leaves it up. -/
theorem WiFi_status_marco (r : Radio) :
    (WiFi_status r).2 = { r with wifi := (WiFi_status r).2.wifi } ∧
    ((WiFi_status r).1 = true → (WiFi_status r).2.wifi = WiFiLink.conectado) := by
  obtain ⟨a, b, c, d, w⟩ := r
  cases w with
  | asociando k => cases k <;> simp [WiFi_status]
  | apagado => simp [WiFi_status]
  | inalcanzable => simp [WiFi_status]
  | conectado => simp [WiFi_status]

/-- When the polling loop returns, it has changed only the link, now up, and the serial
output. -/
theorem whileNoConectado_some (fuel : Nat) :
    ∀ s t : Nodo, whileNoConectado fuel s = some t →
      ∃ se : List Salida,
        t = { s with radio := { s.radio with wifi := WiFiLink.conectado }, serial := se } := by
  induction fuel with
  | zero =>
    intro s t h
    simp [whileNoConectado] at h
  | succ n ih =>
    intro s t h
    obtain ⟨h1, h2⟩ := WiFi_status_marco s.radio
    unfold whileNoConectado at h
    simp only [] at h
    generalize WiFi_status s.radio = st at h h1 h2
    obtain ⟨ok, r⟩ := st
    cases ok with
    | true =>
      simp only [bne_self_eq_false, Bool.false_eq_true, if_false, Option.some.injEq] at h
      refine ⟨s.serial, ?_⟩
      rw [← h]
      have hw := h2 rfl
      simp only at h1 hw
      rw [h1, hw]
    | false =>
      simp only [Bool.bne_true, Bool.not_false, if_true] at h
      obtain ⟨se, hse⟩ := ih _ _ h
      refine ⟨se, ?_⟩
      rw [hse]
      simp only at h1
      rw [h1]
      rfl

/-- When the switching branch of `switchToWiFi` returns, the ESP-NOW context is down with no
peer, the registration flag is clear and the link is up. -/
theorem switchToWiFi_then_some (fuel : Nat) (e : Entorno) (s t : Nodo)
    (h : switchToWiFi_then fuel e s = some t) :
    ∃ se : List Salida,
      t = { s with radio := { espnow := false, peers := [], recvCb := false, sendCb := false,
                              wifi := WiFiLink.conectado }
                   adicion_peers := false
                   efectos := s.efectos ++
                     [Efecto.espnowDeinit, Efecto.wifiDisconnect, Efecto.wifiBegin]
                   serial := se } := by
  unfold switchToWiFi_then at h
  simp only [Nodo.efecto, esp_now_deinit, WiFi_disconnect] at h
  obtain ⟨se, hse⟩ := whileNoConectado_some fuel _ _ h
  refine ⟨se, ?_⟩
  rw [hse]
  cases e.retardoWiFi <;> simp [WiFi_begin]


/-- The two registrations of `taskESPNow` on an empty peer table: each call succeeds exactly
when the ESP-NOW context is up, and then the table holds the two peers, each once. -/
theorem esp_now_add_peer_dos (r : Radio) (h : r.peers = []) :
    (esp_now_add_peer macSensores r).1 = r.espnow ∧
    (esp_now_add_peer macActuadores (esp_now_add_peer macSensores r).2).1 = r.espnow ∧
    (esp_now_add_peer macActuadores (esp_now_add_peer macSensores r).2).2.peers =
      (if r.espnow then [macSensores, macActuadores] else []) := by
  obtain ⟨up, peers, a, b, w⟩ := r
  simp only at h
  subst h
  have hne : ¬ macActuadores = macSensores := by decide
  cases up
  · simp [esp_now_add_peer]
  · simp [esp_now_add_peer, hne]

/-- The calls of `esp_now_add_peer` of a trace extended by further actions. -/
theorem registros_append (l m : List Efecto) :
    registros (l ++ m) = registros l ++ registros m := by
  simp [registros, List.filterMap_append]

/-- Actions of the registration statements, with the outcome of each call. -/
theorem taskESPNow_registro_efectos_eq (s : Nodo) :
    (taskESPNow_registro s).efectos =
      s.efectos ++ [Efecto.peer macSensores (esp_now_add_peer macSensores s.radio).1,
        Efecto.peer macActuadores
          (esp_now_add_peer macActuadores (esp_now_add_peer macSensores s.radio).2).1] := by
  unfold taskESPNow_registro
  show (addPeer macActuadores (addPeer macSensores s)).efectos = _
  rw [addPeer_eq macActuadores]
  show (addPeer macSensores s).efectos ++ _ = _
  rw [addPeer_radio, addPeer_eq macSensores]
  simp

/-- Actions of the guarded block when `adicion_peers` is false, with the outcome of each
registration: the two registrations come first, the dispatch last. -/
theorem taskESPNow_bloque_efectos_eq (e : Entorno) (s : Nodo) (h : s.adicion_peers = false) :
    ∃ lg res : Bool, (taskESPNow_bloque e s).efectos =
      s.efectos ++ [Efecto.peer macSensores (esp_now_add_peer macSensores s.radio).1,
        Efecto.peer macActuadores
          (esp_now_add_peer macActuadores (esp_now_add_peer macSensores s.radio).2).1] ++
      (if lg then [Efecto.registro (getFilePath (getTimestampFromRTC e.ahora))
        (csvLine (getTimestampFromRTC e.ahora) "NODE1" (-60)
          ⟨s.temp, s.hum, aUint16 s.lum, s.CO2, s.valHumsuelo⟩)] else []) ++
      [Efecto.envio macActuadores (reglas s.temp s.hum s.lum s.CO2 s.valHumsuelo) res] := by
  have hreg := taskESPNow_registro_efectos_eq s
  obtain ⟨lg, hlog⟩ := taskESPNow_log_efectos e (taskESPNow_registro s)
  obtain ⟨res, henv, -⟩ := taskESPNow_envio_efectos e
    ((variablesEnvio (taskESPNow_log e (taskESPNow_registro s))).println
      (Salida.txt "despues de funcion envio"))
  obtain ⟨h1, h2, h3, h4, h5, -⟩ := marco_campos (taskESPNow_registro_marco s)
  obtain ⟨g1, g2, g3, g4, g5, -⟩ := marco_campos (taskESPNow_log_marco e (taskESPNow_registro s))
  have hve : ∀ t : Nodo, ((variablesEnvio t).println (Salida.txt "despues de funcion envio")).efectos
      = t.efectos := by
    intro t; rw [variablesEnvio_eq]; rfl
  have hvc : ∀ t : Nodo,
      ((variablesEnvio t).println (Salida.txt "despues de funcion envio")).readingsToSend
      = reglas t.temp t.hum t.lum t.CO2 t.valHumsuelo := by
    intro t; rw [variablesEnvio_eq]; rfl
  refine ⟨lg, res, ?_⟩
  rw [taskESPNow_bloque_pend e s h]
  dsimp only
  rw [henv, hve, hvc, hlog, hreg, g1, g2, g3, g4, g5, h1, h2, h3, h4, h5]

/-- The guarded block on a state whose flag is clear and whose peer table is empty: each of
the two calls of `esp_now_add_peer` succeeds exactly when the context is up, and the table
afterwards holds the two peers if it is up and nothing if it is down. -/
theorem taskESPNow_bloque_registra (e : Entorno) (s : Nodo) (h : s.adicion_peers = false)
    (hv : s.radio.peers = []) :
    registros (taskESPNow_bloque e s).efectos =
      registros s.efectos ++ [(macSensores, s.radio.espnow), (macActuadores, s.radio.espnow)] ∧
    (taskESPNow_bloque e s).radio.peers =
      (if s.radio.espnow then [macSensores, macActuadores] else []) ∧
    ∃ lg res : Bool, (taskESPNow_bloque e s).efectos =
      s.efectos ++ [Efecto.peer macSensores s.radio.espnow,
        Efecto.peer macActuadores s.radio.espnow] ++
      (if lg then [Efecto.registro (getFilePath (getTimestampFromRTC e.ahora))
        (csvLine (getTimestampFromRTC e.ahora) "NODE1" (-60)
          ⟨s.temp, s.hum, aUint16 s.lum, s.CO2, s.valHumsuelo⟩)] else []) ++
      [Efecto.envio macActuadores (reglas s.temp s.hum s.lum s.CO2 s.valHumsuelo) res] := by
  obtain ⟨d1, d2, d3⟩ := esp_now_add_peer_dos s.radio hv
  obtain ⟨lg, res, hef⟩ := taskESPNow_bloque_efectos_eq e s h
  rw [d1, d2] at hef
  have hcb1 : ∀ r : Radio, (esp_now_register_send_cb r).peers = r.peers := by
    intro r; unfold esp_now_register_send_cb; split <;> rfl
  have hcb2 : ∀ r : Radio, (esp_now_register_recv_cb r).peers = r.peers := by
    intro r; unfold esp_now_register_recv_cb; split <;> rfl
  refine ⟨?_, ?_, lg, res, hef⟩
  · rw [hef]
    cases lg <;> simp [registros_append, registros]
  · rw [taskESPNow_bloque_radio e s h, hcb1, hcb2, d3]


/-- The guarded block keeps the registration coherent and leaves the flag set. -/
theorem taskESPNow_bloque_coherente (e : Entorno) (s : Nodo) (h : s.registroCoherente)
    (hu : s.useWiFi = false) :
    (taskESPNow_bloque e s).registroCoherente ∧ (taskESPNow_bloque e s).useWiFi = false := by
  by_cases hp : s.adicion_peers = false
  · obtain ⟨-, hpeers, -⟩ := taskESPNow_bloque_registra e s hp (h.1 hp)
    obtain ⟨-, -, -, -, -, g6, g7, -⟩ := marco_campos (taskESPNow_bloque_marco e s)
    have ha := taskESPNow_bloque_adicion e s
    refine ⟨⟨?_, ?_, ?_⟩, g6.trans hu⟩
    · intro hc
      rw [ha] at hc
      exact Bool.noConfusion hc
    · intro _
      rw [hpeers, g7]
    · intro hc
      rw [g6, hu] at hc
      exact Bool.noConfusion hc
  · have h2 : s.adicion_peers = true := by simpa using hp
    rw [taskESPNow_bloque_hecho e s h2]
    exact ⟨h, hu⟩

/-- An iteration of `taskESPNow` that returns keeps the registration coherent. -/
theorem taskESPNow_iter_coherente (fuel : Nat) (e : Entorno) (s t : Nodo)
    (h : s.registroCoherente) (hs : taskESPNow_iter fuel e s = some t) :
    t.registroCoherente := by
  by_cases hu : s.useWiFi = true
  · unfold taskESPNow_iter at hs
    simp only [hu, Bool.not_true, Bool.false_eq_true, if_false, Option.some.injEq] at hs
    rw [← hs]
    exact h
  · have hu2 : s.useWiFi = false := by simpa using hu
    obtain ⟨hB, -⟩ := taskESPNow_bloque_coherente e s h hu2
    unfold taskESPNow_iter at hs
    simp only [hu2, Bool.not_false, if_true] at hs
    generalize taskESPNow_bloque e s = B at hB hs
    unfold switchToWiFi at hs
    split at hs
    · obtain ⟨se, hse⟩ := switchToWiFi_then_some fuel e _ _ hs
      rw [hse]
      exact ⟨fun _ => rfl, fun hc => Bool.noConfusion hc, fun _ => ⟨rfl, rfl, rfl⟩⟩
    · simp only [Option.some.injEq] at hs
      rw [← hs]
      exact ⟨hB.1, hB.2.1, fun hc => Bool.noConfusion hc⟩

/-- An iteration of `taskWiFi` that returns keeps the registration coherent; entered in WiFi
mode it returns to ESP-NOW mode with the flag clear, no peer, no new registration call, and
the context up exactly when `esp_now_init` succeeded. -/
theorem taskWiFi_iter_coherente (fuel : Nat) (e : Entorno) (s t : Nodo)
    (h : s.registroCoherente) (hs : taskWiFi_iter fuel e s = some t) :
    t.registroCoherente ∧
    (s.useWiFi = true → t.useWiFi = false ∧ t.adicion_peers = false ∧ t.radio.peers = [] ∧
      t.radio.espnow = e.initOk ∧ registros t.efectos = registros s.efectos) := by
  by_cases hu : s.useWiFi = true
  · obtain ⟨ha, hd, hw⟩ := h.2.2 hu
    have hp := h.1 ha
    cases fuel with
    | zero =>
      exfalso
      have hst : WiFi_status s.radio = (true, s.radio) := by
        unfold WiFi_status
        rw [hw]
      unfold taskWiFi_iter at hs
      rw [if_pos (by rw [hu]; rfl)] at hs
      simp only [hst, bne_self_eq_false, Bool.false_eq_true, if_false, whileNoConectado] at hs
      exact Option.noConfusion hs
    | succ n =>
      rw [taskWiFi_iter_conectado_eq n e s hu hw] at hs
      simp only [Option.some.injEq] at hs
      obtain ⟨i1, -⟩ := esp_now_init_apagado e.initOk s.radio hd
      have hpe : (esp_now_init e.initOk (WiFi_disconnect s.radio)).peers = [] := by
        cases e.initOk <;> simp [esp_now_init, WiFi_disconnect, hp]
      have hreg : registros ((s.efectos ++ (if s.alertWorthy then
          [Efecto.alerta CHAT_ID (textoAlarma s.temp s.hum s.lum s.CO2) e.telegramOk] else [])) ++
          [Efecto.wifiDisconnect, Efecto.espnowInit e.initOk]) = registros s.efectos := by
        rw [registros_append, registros_append]
        by_cases hb : s.alertWorthy = true <;> simp [hb, registros]
      rw [← hs]
      refine ⟨⟨fun _ => hpe, ?_, fun hc => Bool.noConfusion hc⟩, fun _ => ⟨rfl, ha, hpe, i1, hreg⟩⟩
      intro hc
      exact absurd (ha.symm.trans hc) (by decide)
  · have hu2 : s.useWiFi = false := by simpa using hu
    unfold taskWiFi_iter at hs
    simp only [hu2, Bool.false_eq_true, beq_iff_eq, if_false, Option.some.injEq] at hs
    rw [← hs]
    exact ⟨h, fun hc => absurd hc hu⟩

/-- The receive callback writes neither the flags, nor the radio, nor the ghost trace. -/
theorem recibir_marco (src : MAC) (m : struct_message) (s : Nodo) :
    (recibir src m s).adicion_peers = s.adicion_peers ∧
    (recibir src m s).useWiFi = s.useWiFi ∧
    (recibir src m s).radio = s.radio ∧
    (recibir src m s).efectos = s.efectos := by
  unfold recibir
  split
  · by_cases hsrc : src = macSensores
    · rw [hsrc, OnDataRecv_conocido]
      exact ⟨rfl, rfl, rfl, rfl⟩
    · rw [OnDataRecv_desconocido src m s hsrc]
      exact ⟨rfl, rfl, rfl, rfl⟩
  · exact ⟨rfl, rfl, rfl, rfl⟩

/-- A delivery of a frame keeps the registration coherent. -/
theorem recibir_coherente (src : MAC) (m : struct_message) (s : Nodo)
    (h : s.registroCoherente) : (recibir src m s).registroCoherente := by
  obtain ⟨r1, r2, r3, -⟩ := recibir_marco src m s
  unfold Nodo.registroCoherente
  rw [r1, r2, r3]
  exact h

/-- What `setup` leaves: the flags and the peer table untouched, and the ESP-NOW context up
when the tasks are created. -/
theorem setup_marco (e : EntornoSetup) (s : Nodo) :
    (setup e s).2.adicion_peers = s.adicion_peers ∧
    (setup e s).2.useWiFi = s.useWiFi ∧
    (setup e s).2.radio.peers = s.radio.peers ∧
    ((setup e s).1 = true → (setup e s).2.radio.espnow = true) := by
  have hrtc : (initRTC e s).2.adicion_peers = s.adicion_peers ∧
      (initRTC e s).2.useWiFi = s.useWiFi ∧ (initRTC e s).2.radio = s.radio := by
    unfold initRTC
    split
    · exact ⟨rfl, rfl, rfl⟩
    · split <;> exact ⟨rfl, rfl, rfl⟩
  have hsd : ∀ t : Nodo, (initSD t).2.adicion_peers = t.adicion_peers ∧
      (initSD t).2.useWiFi = t.useWiFi ∧ (initSD t).2.radio = t.radio := by
    intro t
    unfold initSD
    split <;> exact ⟨rfl, rfl, rfl⟩
  obtain ⟨a1, a2, a3⟩ := hrtc
  obtain ⟨b1, b2, b3⟩ := hsd (initRTC e s).2
  unfold setup
  simp only []
  generalize (initSD (initRTC e s).2).2 = u at b1 b2 b3
  obtain ⟨i1, i2, i3, i4⟩ := e
  cases i3 <;> cases i4 <;>
    simp [esp_now_init, Nodo.efecto, Nodo.println, b1, b2, b3, a1, a2, a3]

/-- The state left by `setup` is coherent. -/
theorem setup_coherente (e : EntornoSetup) (sd : SD) :
    (setup e (encendido sd)).2.registroCoherente := by
  obtain ⟨s1, s2, s3, -⟩ := setup_marco e (encendido sd)
  have c1 : (encendido sd).adicion_peers = false := rfl
  have c2 : (encendido sd).useWiFi = false := rfl
  have c3 : (encendido sd).radio.peers = [] := rfl
  refine ⟨fun _ => s3.trans c3, ?_, ?_⟩
  · intro hc
    exact absurd ((s1.trans c1).symm.trans hc) (by decide)
  · intro hc
    exact absurd ((s2.trans c2).symm.trans hc) (by decide)

/-- Deliveries write neither the flags, nor the radio, nor the ghost trace. -/
theorem recibirTodos_marco (frames : List Trama) (s : Nodo) :
    (recibirTodos frames s).adicion_peers = s.adicion_peers ∧
    (recibirTodos frames s).useWiFi = s.useWiFi ∧
    (recibirTodos frames s).radio = s.radio ∧
    (recibirTodos frames s).efectos = s.efectos := by
  induction frames generalizing s with
  | nil => exact ⟨rfl, rfl, rfl, rfl⟩
  | cons f fs ih =>
    obtain ⟨a1, a2, a3, a4⟩ := ih (recibir f.1 f.2 s)
    obtain ⟨b1, b2, b3, b4⟩ := recibir_marco f.1 f.2 s
    exact ⟨a1.trans b1, a2.trans b2, a3.trans b3, a4.trans b4⟩

/-- The guarded block without frames is `taskESPNow_bloque`. -/
theorem taskESPNow_bloque_rx_ninguna (e : Entorno) (s : Nodo) :
    taskESPNow_bloque_rx e Recepciones.ninguna s = taskESPNow_bloque e s := rfl

/-- An iteration without frames is `taskESPNow_iter`. -/
theorem taskESPNow_ciclo_ninguna (fuel : Nat) (e : Entorno) (s : Nodo) :
    taskESPNow_ciclo fuel e Recepciones.ninguna s = taskESPNow_iter fuel e s := rfl

/-- The guarded block with deliveries when `adicion_peers` is false, as a composition. -/
theorem taskESPNow_bloque_rx_pend (e : Entorno) (rx : Recepciones) (s : Nodo)
    (h : s.adicion_peers = false) :
    taskESPNow_bloque_rx e rx s =
      { taskESPNow_envio e (recibirTodos rx.l456
          ((variablesEnvio (recibirTodos rx.l454 (taskESPNow_log e
            (recibirTodos rx.l449 (taskESPNow_registro s))))).println
              (Salida.txt "despues de funcion envio"))) with adicion_peers := true } := by
  unfold taskESPNow_bloque_rx
  simp only [h, beq_self_eq_true, if_true]

/-- The guarded block with deliveries does nothing when `adicion_peers` is true. -/
theorem taskESPNow_bloque_rx_hecho (e : Entorno) (rx : Recepciones) (s : Nodo)
    (h : s.adicion_peers = true) : taskESPNow_bloque_rx e rx s = s := by
  unfold taskESPNow_bloque_rx
  simp only [h, Bool.true_eq_false, if_false]
  rfl

/-- The radio after the guarded block with deliveries when `adicion_peers` is false. -/
theorem taskESPNow_bloque_rx_radio (e : Entorno) (rx : Recepciones) (s : Nodo)
    (h : s.adicion_peers = false) :
    (taskESPNow_bloque_rx e rx s).radio = esp_now_register_send_cb (esp_now_register_recv_cb
      (esp_now_add_peer macActuadores (esp_now_add_peer macSensores s.radio).2).2) := by
  have hlog : ∀ t : Nodo, (taskESPNow_log e t).radio = t.radio := by
    intro t
    unfold taskESPNow_log
    simp only []
    rw [logSensorData_eq]
  have hve : ∀ t : Nodo, ((variablesEnvio t).println
      (Salida.txt "despues de funcion envio")).radio = t.radio := by
    intro t; rw [variablesEnvio_eq]; rfl
  have henv : ∀ t : Nodo, (taskESPNow_envio e t).radio = esp_now_register_send_cb t.radio := by
    intro t
    unfold taskESPNow_envio
    simp only []
    split <;> rfl
  have hreg : (taskESPNow_registro s).radio = esp_now_register_recv_cb
      (esp_now_add_peer macActuadores (esp_now_add_peer macSensores s.radio).2).2 := by
    unfold taskESPNow_registro
    dsimp only
    rw [addPeer_radio, addPeer_radio]
  have hrx : ∀ (l : List Trama) (t : Nodo), (recibirTodos l t).radio = t.radio :=
    fun l t => (recibirTodos_marco l t).2.2.1
  rw [taskESPNow_bloque_rx_pend e rx s h]
  dsimp only
  rw [henv, hrx, hve, hrx, hlog, hrx, hreg]

/-- Actions of the guarded block with deliveries when `adicion_peers` is false: the two
registrations with their outcomes, the log record if the append succeeded, then the
dispatch. -/
theorem taskESPNow_bloque_rx_efectos (e : Entorno) (rx : Recepciones) (s : Nodo)
    (h : s.adicion_peers = false) :
    ∃ (lg res : Bool) (linea : String) (cmd : struct_message2),
      (taskESPNow_bloque_rx e rx s).efectos =
        s.efectos ++ [Efecto.peer macSensores (esp_now_add_peer macSensores s.radio).1,
          Efecto.peer macActuadores
            (esp_now_add_peer macActuadores (esp_now_add_peer macSensores s.radio).2).1] ++
        (if lg then [Efecto.registro (getFilePath (getTimestampFromRTC e.ahora)) linea]
          else []) ++
        [Efecto.envio macActuadores cmd res] := by
  have hrx : ∀ (l : List Trama) (t : Nodo), (recibirTodos l t).efectos = t.efectos :=
    fun l t => (recibirTodos_marco l t).2.2.2
  have hve : ∀ t : Nodo, ((variablesEnvio t).println (Salida.txt "despues de funcion envio")).efectos
      = t.efectos := by
    intro t; rw [variablesEnvio_eq]; rfl
  have hreg := taskESPNow_registro_efectos_eq s
  obtain ⟨lg, hlog⟩ := taskESPNow_log_efectos e (recibirTodos rx.l449 (taskESPNow_registro s))
  obtain ⟨res, henv, -⟩ := taskESPNow_envio_efectos e (recibirTodos rx.l456
    ((variablesEnvio (recibirTodos rx.l454 (taskESPNow_log e
      (recibirTodos rx.l449 (taskESPNow_registro s))))).println
        (Salida.txt "despues de funcion envio")))
  rw [taskESPNow_bloque_rx_pend e rx s h]
  dsimp only
  rw [henv, hrx, hve, hrx, hlog, hrx, hreg]
  exact ⟨lg, res, _, _, rfl⟩

/-- The guarded block with deliveries leaves the mode flag as it is and the registration
flag set. -/
theorem taskESPNow_bloque_rx_banderas (e : Entorno) (rx : Recepciones) (s : Nodo) :
    (taskESPNow_bloque_rx e rx s).useWiFi = s.useWiFi ∧
    (taskESPNow_bloque_rx e rx s).adicion_peers = true := by
  by_cases h : s.adicion_peers = false
  · have hrx : ∀ (l : List Trama) (t : Nodo), (recibirTodos l t).useWiFi = t.useWiFi :=
      fun l t => (recibirTodos_marco l t).2.1
    have h1 : ∀ t : Nodo, (taskESPNow_registro t).useWiFi = t.useWiFi :=
      fun t => (marco_campos (taskESPNow_registro_marco t)).2.2.2.2.2.1
    have h2 : ∀ t : Nodo, (taskESPNow_log e t).useWiFi = t.useWiFi :=
      fun t => (marco_campos (taskESPNow_log_marco e t)).2.2.2.2.2.1
    have h3 : ∀ t : Nodo, ((variablesEnvio t).println
        (Salida.txt "despues de funcion envio")).useWiFi = t.useWiFi := by
      intro t; rw [variablesEnvio_eq]; rfl
    have h4 : ∀ t : Nodo, (taskESPNow_envio e t).useWiFi = t.useWiFi :=
      fun t => (marco_campos (taskESPNow_envio_marco e t)).2.2.2.2.2.1
    rw [taskESPNow_bloque_rx_pend e rx s h]
    dsimp only
    rw [h4, hrx, h3, hrx, h2, hrx, h1]
    exact ⟨rfl, rfl⟩
  · have h2 : s.adicion_peers = true := by simpa using h
    rw [taskESPNow_bloque_rx_hecho e rx s h2]
    exact ⟨rfl, h2⟩

/-- The guarded block with deliveries on a state whose flag is clear and whose peer table is
empty: each of the two calls of `esp_now_add_peer` succeeds exactly when the context is up,
and the table afterwards holds the two peers if it is up and nothing if it is down. -/
theorem taskESPNow_bloque_rx_registra (e : Entorno) (rx : Recepciones) (s : Nodo)
    (h : s.adicion_peers = false) (hv : s.radio.peers = []) :
    (taskESPNow_bloque_rx e rx s).radio.peers =
      (if s.radio.espnow then [macSensores, macActuadores] else []) ∧
    (taskESPNow_bloque_rx e rx s).radio.espnow = s.radio.espnow ∧
    ∃ (lg res : Bool) (linea : String) (cmd : struct_message2),
      (taskESPNow_bloque_rx e rx s).efectos =
        s.efectos ++ [Efecto.peer macSensores s.radio.espnow,
          Efecto.peer macActuadores s.radio.espnow] ++
        (if lg then [Efecto.registro (getFilePath (getTimestampFromRTC e.ahora)) linea]
          else []) ++
        [Efecto.envio macActuadores cmd res] := by
  obtain ⟨d1, d2, d3⟩ := esp_now_add_peer_dos s.radio hv
  obtain ⟨lg, res, linea, cmd, hef⟩ := taskESPNow_bloque_rx_efectos e rx s h
  rw [d1, d2] at hef
  have hr := taskESPNow_bloque_rx_radio e rx s h
  refine ⟨?_, ?_, lg, res, linea, cmd, hef⟩
  · rw [hr]
    have hcb1 : ∀ r : Radio, (esp_now_register_send_cb r).peers = r.peers := by
      intro r; unfold esp_now_register_send_cb; split <;> rfl
    have hcb2 : ∀ r : Radio, (esp_now_register_recv_cb r).peers = r.peers := by
      intro r; unfold esp_now_register_recv_cb; split <;> rfl
    rw [hcb1, hcb2, d3]
  · rw [hr]
    have h1 := esp_now_add_peer_frame macSensores s.radio
    have h2 := esp_now_add_peer_frame macActuadores (esp_now_add_peer macSensores s.radio).2
    generalize (esp_now_add_peer macSensores s.radio).2 = r1 at h1 h2
    generalize (esp_now_add_peer macActuadores r1).2 = r2 at h2
    have e2 : r2.espnow = s.radio.espnow := by rw [h2, h1]
    rw [← e2]
    cases hx : r2.espnow <;> simp [esp_now_register_send_cb, esp_now_register_recv_cb, hx]

/-- What an iteration of `taskESPNow` with deliveries that starts in ESP-NOW mode and returns
leaves of the flags, the radio and the trace, in terms of the state after the guarded block:
either `switchToWiFi` found no breach and only cleared `useWiFi`, or it tore the context
down, cleared `adicion_peers` and brought the WiFi link up. -/
theorem taskESPNow_ciclo_some (fuel : Nat) (e : Entorno) (rx : Recepciones) (s t : Nodo)
    (hu : s.useWiFi = false) (hs : taskESPNow_ciclo fuel e rx s = some t) :
    (t.useWiFi = false ∧
      t.adicion_peers = (taskESPNow_bloque_rx e rx (recibirTodos rx.l443 s)).adicion_peers ∧
      t.radio = (taskESPNow_bloque_rx e rx (recibirTodos rx.l443 s)).radio ∧
      t.efectos = (taskESPNow_bloque_rx e rx (recibirTodos rx.l443 s)).efectos) ∨
    (t.useWiFi = true ∧ t.adicion_peers = false ∧
      t.radio = { espnow := false, peers := [], recvCb := false, sendCb := false,
                  wifi := WiFiLink.conectado } ∧
      t.efectos = (taskESPNow_bloque_rx e rx (recibirTodos rx.l443 s)).efectos ++
        [Efecto.espnowDeinit, Efecto.wifiDisconnect, Efecto.wifiBegin]) := by
  unfold taskESPNow_ciclo at hs
  simp only [hu, Bool.not_false, if_true] at hs
  generalize taskESPNow_bloque_rx e rx (recibirTodos rx.l443 s) = B at hs ⊢
  obtain ⟨a1, a2, a3, a4⟩ := recibirTodos_marco rx.l468 B
  generalize recibirTodos rx.l468 B = B1 at hs a1 a2 a3 a4
  obtain ⟨b1, b2, b3, b4⟩ := recibirTodos_marco rx.l470 { B1 with useWiFi := true }
  generalize recibirTodos rx.l470 { B1 with useWiFi := true } = X at hs b1 b2 b3 b4
  split at hs
  · obtain ⟨c1, c2, c3, c4⟩ := recibirTodos_marco rx.l414 X
    generalize recibirTodos rx.l414 X = Y at hs c1 c2 c3 c4
    obtain ⟨se, hse⟩ := switchToWiFi_then_some fuel e _ _ hs
    refine Or.inr ?_
    rw [hse]
    refine ⟨c2.trans b2, rfl, rfl, ?_⟩
    show Y.efectos ++ _ = _
    rw [c4, b4]
    show B1.efectos ++ _ = _
    rw [a4]
  · simp only [Option.some.injEq] at hs
    refine Or.inl ?_
    rw [← hs]
    exact ⟨rfl, b1.trans a1, b3.trans a3, b4.trans a4⟩

/-- The suffix of a trace extended by further actions. -/
theorem desdeContexto_append (l m : List Efecto) :
    desdeContexto (l ++ m) = m.foldl desdeContexto_paso (desdeContexto l) := by
  unfold desdeContexto
  rw [List.foldl_append]

/-- The suffix of a trace extended by the actions of the guarded block. -/
theorem desdeContexto_bloque (l : List Efecto) (a b lg res : Bool) (ruta linea : String)
    (cmd : struct_message2) :
    registros (desdeContexto (l ++ [Efecto.peer macSensores a, Efecto.peer macActuadores b] ++
      (if lg then [Efecto.registro ruta linea] else []) ++
      [Efecto.envio macActuadores cmd res])) =
    registros (desdeContexto l) ++ [(macSensores, a), (macActuadores, b)] := by
  rw [List.append_assoc, List.append_assoc, desdeContexto_append]
  cases lg <;> simp [registros, List.filterMap_append, desdeContexto_paso]

/-- The suffix of a trace extended by the actions of the switching branch. -/
theorem desdeContexto_cambio (l : List Efecto) :
    registros (desdeContexto (l ++
      [Efecto.espnowDeinit, Efecto.wifiDisconnect, Efecto.wifiBegin])) = [] := by
  rw [desdeContexto_append]
  simp [registros, desdeContexto_paso]

/-- The suffix of a trace extended by the actions of an iteration of `taskWiFi`. -/
theorem desdeContexto_retorno (l m : List Efecto) (ok : Bool) :
    desdeContexto (l ++ m ++ [Efecto.wifiDisconnect, Efecto.espnowInit ok]) = [] := by
  rw [desdeContexto_append]
  simp [desdeContexto_paso]

/-- Coherence and single registration only read the flags, the radio and the trace. -/
theorem registro_transporta {a b : Nodo} (h1 : a.adicion_peers = b.adicion_peers)
    (h2 : a.useWiFi = b.useWiFi) (h3 : a.radio = b.radio) (h4 : a.efectos = b.efectos)
    (hc : b.registroCoherente) (hj : b.registroUnico) :
    a.registroCoherente ∧ a.registroUnico := by
  unfold Nodo.registroCoherente Nodo.registroUnico at *
  rw [h1, h2, h3, h4]
  exact ⟨hc, hj⟩

/-- The guarded block with deliveries keeps the registration coherent and single. -/
theorem taskESPNow_bloque_rx_coherente (e : Entorno) (rx : Recepciones) (s : Nodo)
    (hc : s.registroCoherente) (hj : s.registroUnico) (hu : s.useWiFi = false) :
    (taskESPNow_bloque_rx e rx s).registroCoherente ∧
    (taskESPNow_bloque_rx e rx s).registroUnico := by
  by_cases hp : s.adicion_peers = false
  · obtain ⟨hpeers, hup, lg, res, linea, cmd, hef⟩ :=
      taskESPNow_bloque_rx_registra e rx s hp (hc.1 hp)
    obtain ⟨g1, g2⟩ := taskESPNow_bloque_rx_banderas e rx s
    unfold Nodo.registroUnico at hj
    rw [hp] at hj
    refine ⟨⟨?_, ?_, ?_⟩, ?_⟩
    · intro hx
      rw [g2] at hx
      exact Bool.noConfusion hx
    · intro _
      rw [hpeers, hup]
    · intro hx
      rw [g1, hu] at hx
      exact Bool.noConfusion hx
    · unfold Nodo.registroUnico
      rw [hef, g2, hup, desdeContexto_bloque, hj]
      rfl
  · have h2 : s.adicion_peers = true := by simpa using hp
    rw [taskESPNow_bloque_rx_hecho e rx s h2]
    exact ⟨hc, hj⟩

/-- An iteration of `taskESPNow` with deliveries that returns keeps the registration
coherent and single. -/
theorem taskESPNow_ciclo_coherente (fuel : Nat) (e : Entorno) (rx : Recepciones) (s t : Nodo)
    (hc : s.registroCoherente) (hj : s.registroUnico)
    (hs : taskESPNow_ciclo fuel e rx s = some t) :
    t.registroCoherente ∧ t.registroUnico := by
  by_cases hu : s.useWiFi = true
  · unfold taskESPNow_ciclo at hs
    simp only [hu, Bool.not_true, Bool.false_eq_true, if_false, Option.some.injEq] at hs
    rw [← hs]
    exact ⟨hc, hj⟩
  · have hu2 : s.useWiFi = false := by simpa using hu
    obtain ⟨a1, a2, a3, a4⟩ := recibirTodos_marco rx.l443 s
    obtain ⟨hc0, hj0⟩ := registro_transporta a1 a2 a3 a4 hc hj
    obtain ⟨hcB, hjB⟩ := taskESPNow_bloque_rx_coherente e rx _ hc0 hj0 (a2.trans hu2)
    obtain ⟨gB, -⟩ := taskESPNow_bloque_rx_banderas e rx (recibirTodos rx.l443 s)
    rcases taskESPNow_ciclo_some fuel e rx s t hu2 hs with ⟨t1, t2, t3, t4⟩ | ⟨t1, t2, t3, t4⟩
    · exact registro_transporta t2 (t1.trans ((gB.trans (a2.trans hu2)).symm)) t3 t4 hcB hjB
    · refine ⟨⟨?_, ?_, ?_⟩, ?_⟩
      · intro _
        rw [t3]
      · intro hx
        rw [t2] at hx
        exact Bool.noConfusion hx
      · intro _
        rw [t3]
        exact ⟨t2, rfl, rfl⟩
      · unfold Nodo.registroUnico
        rw [t4, desdeContexto_cambio, t2]
        rfl

/-- An iteration of `taskWiFi` that returns keeps the registration single. -/
theorem taskWiFi_iter_unico (fuel : Nat) (e : Entorno) (s t : Nodo)
    (hc : s.registroCoherente) (hj : s.registroUnico)
    (hs : taskWiFi_iter fuel e s = some t) : t.registroUnico := by
  by_cases hu : s.useWiFi = true
  · obtain ⟨ha, hd, hw⟩ := hc.2.2 hu
    obtain ⟨-, c2, -⟩ := (taskWiFi_iter_coherente fuel e s t hc hs).2 hu
    cases fuel with
    | zero =>
      exfalso
      have hst : WiFi_status s.radio = (true, s.radio) := by
        unfold WiFi_status
        rw [hw]
      unfold taskWiFi_iter at hs
      rw [if_pos (by rw [hu]; rfl)] at hs
      simp only [hst, bne_self_eq_false, Bool.false_eq_true, if_false, whileNoConectado] at hs
      exact Option.noConfusion hs
    | succ n =>
      have hs2 := hs
      rw [taskWiFi_iter_conectado_eq n e s hu hw] at hs2
      simp only [Option.some.injEq] at hs2
      have hef : t.efectos = (s.efectos ++ (if s.alertWorthy then
          [Efecto.alerta CHAT_ID (textoAlarma s.temp s.hum s.lum s.CO2) e.telegramOk] else [])) ++
          [Efecto.wifiDisconnect, Efecto.espnowInit e.initOk] := by
        rw [← hs2]
      unfold Nodo.registroUnico
      rw [hef, desdeContexto_retorno, c2]
      rfl
  · have hu2 : s.useWiFi = false := by simpa using hu
    unfold taskWiFi_iter at hs
    simp only [hu2, Bool.false_eq_true, beq_iff_eq, if_false, Option.some.injEq] at hs
    rw [← hs]
    exact hj

/-- Actions of `setup`: the two calls of `esp_now_init`. -/
theorem setup_efectos (e : EntornoSetup) (s : Nodo) :
    (setup e s).2.efectos =
      s.efectos ++ [Efecto.espnowInit e.initOk1, Efecto.espnowInit e.initOk2] := by
  have hrtc : (initRTC e s).2.efectos = s.efectos := by
    unfold initRTC
    split
    · rfl
    · split <;> rfl
  have hsd : ∀ t : Nodo, (initSD t).2.efectos = t.efectos := by
    intro t
    unfold initSD
    split <;> rfl
  have hb := hsd (initRTC e s).2
  unfold setup
  simp only []
  generalize (initSD (initRTC e s).2).2 = u at hb
  rw [← hrtc, ← hb]
  split <;> simp [Nodo.efecto, Nodo.println]

/-- The state left by `setup` has no registration since the initialisation. -/
theorem setup_unico (e : EntornoSetup) (sd : SD) :
    (setup e (encendido sd)).2.registroUnico := by
  obtain ⟨s1, -, -, -⟩ := setup_marco e (encendido sd)
  have c1 : (encendido sd).adicion_peers = false := rfl
  unfold Nodo.registroUnico
  rw [setup_efectos, s1, c1, desdeContexto_append]
  rfl

/-- Every reachable state is coherent and has a single registration of each peer per
context. -/
theorem Alcanzable_coherente (s : Nodo) (h : Alcanzable s) :
    s.registroCoherente ∧ s.registroUnico := by
  induction h with
  | arranque e sd _ => exact ⟨setup_coherente e sd, setup_unico e sd⟩
  | cicloESPNow fuel e rx s t _ hs ih => exact taskESPNow_ciclo_coherente fuel e rx s t ih.1 ih.2 hs
  | cicloWiFi fuel e s t _ hs ih =>
    exact ⟨(taskWiFi_iter_coherente fuel e s t ih.1 hs).1, taskWiFi_iter_unico fuel e s t ih.1 ih.2 hs⟩
  | recepcion src m s _ ih =>
    obtain ⟨r1, r2, r3, r4⟩ := recibir_marco src m s
    exact registro_transporta r1 r2 r3 r4 ih.1 ih.2

/-- In WiFi mode a reachable node drops every frame: the context is down. -/
theorem recibir_en_WiFi (src : MAC) (m : struct_message) (s : Nodo) (h : Alcanzable s)
    (hu : s.useWiFi = true) : recibir src m s = s := by
  obtain ⟨-, hd, -⟩ := (Alcanzable_coherente s h).1.2.2 hu
  unfold recibir
  rw [hd]
  rfl

/-- Function `setup` does not write the snapshot. -/
theorem setup_alertWorthy (e : EntornoSetup) (s : Nodo) :
    (setup e s).2.alertWorthy = s.alertWorthy := by
  have hrtc : (initRTC e s).2.alertWorthy = s.alertWorthy := by
    unfold initRTC
    split
    · rfl
    · split <;> rfl
  have hsd : ∀ t : Nodo, (initSD t).2.alertWorthy = t.alertWorthy := by
    intro t
    unfold initSD
    split <;> rfl
  have hb := hsd (initRTC e s).2
  unfold setup
  simp only []
  generalize (initSD (initRTC e s).2).2 = u at hb
  rw [← hrtc, ← hb]
  split <;> rfl

/-- A whole breach episode is reachable from `setup`: with the initial all-zero snapshot
(temperature below 18) and no frame received, the first iteration of `taskESPNow` switches
to WiFi mode, and the following iteration of `taskWiFi` returns to ESP-NOW mode with the
flag clear. -/
theorem episodio_alcanzable :
    ∃ t1 t2 : Nodo, taskESPNow_iter 3 entornoBueno trasSetup = some t1 ∧ Alcanzable t1 ∧
      t1.useWiFi = true ∧ taskWiFi_iter 1 entornoBueno t1 = some t2 ∧ Alcanzable t2 ∧
      t2.useWiFi = false ∧ t2.adicion_peers = false ∧ t2.radio.espnow = true := by
  have h0 : Alcanzable trasSetup := Alcanzable.arranque entornoSetupBueno sdVacia rfl
  have hu : trasSetup.useWiFi = false :=
    (setup_marco entornoSetupBueno (encendido sdVacia)).2.1
  have hb : trasSetup.alertWorthy = true := by
    unfold trasSetup
    rw [setup_alertWorthy]
    simp [Nodo.alertWorthy, alertWorthy, encendido, inicial]
  have h1 := taskESPNow_iter_brecha 3 2 entornoBueno trasSetup hu hb rfl (by decide)
  generalize trasSetup = S at h0 hu hb h1
  obtain ⟨T, hT, hTu, hTw⟩ : ∃ T : Nodo, taskESPNow_iter 3 entornoBueno S = some T ∧
      T.useWiFi = true ∧ T.radio.wifi = WiFiLink.conectado := ⟨_, h1, rfl, rfl⟩
  have a1 := Alcanzable.cicloESPNow 3 entornoBueno Recepciones.ninguna S T h0
    ((taskESPNow_ciclo_ninguna 3 entornoBueno S).trans hT)
  have h2 := taskWiFi_iter_conectado_eq 0 entornoBueno T hTu hTw
  obtain ⟨c1, c2, -, c4, -⟩ :=
    (taskWiFi_iter_coherente 1 entornoBueno T _ (Alcanzable_coherente T a1).1 h2).2 hTu
  exact ⟨T, _, hT, a1, hTu, h2, Alcanzable.cicloWiFi 1 entornoBueno T _ a1 h2, c1, c2, c4⟩

/-- C12. For every snapshot: some actuator output computed by `variablesEnvio` is on exactly
when one of the seven actuator clauses holds; the breach predicate of `generacionAlarma` and
`switchToWiFi` holds if and only if some actuator is on or CO2 = 1800. Hence an actuator on
implies a breach, a snapshot without breach yields the all-off command, and a breaching
snapshot with no actuator on has CO2 = 1800 and every other reading in range. The in-range
snapshot with CO2 = 1800 is such a case. -/
theorem C12_reglas_y_alertWorthy (s : Nodo) :
    (algunActuador (variablesEnvio s).readingsToSend = true ↔
      (s.temp > 28 ∨ s.hum > 60 ∨ s.CO2 > 1800 ∨ s.temp < 18 ∨ s.lum > 3500 ∨ s.lum < 2500 ∨
        s.valHumsuelo < 60)) ∧
    (s.alertWorthy = true ↔
      (algunActuador (variablesEnvio s).readingsToSend = true ∨ s.CO2 = 1800)) ∧
    (generacionAlarma_cond s = true ↔
      (algunActuador (variablesEnvio s).readingsToSend = true ∨ s.CO2 = 1800)) ∧
    (switchToWiFi_cond s = true ↔
      (algunActuador (variablesEnvio s).readingsToSend = true ∨ s.CO2 = 1800)) ∧
    (algunActuador (variablesEnvio s).readingsToSend = false ∨ s.alertWorthy = true) ∧
    (s.alertWorthy = true ∨
      (variablesEnvio s).readingsToSend = ⟨false, false, false, false, false⟩) ∧
    (s.alertWorthy = false ∨ algunActuador (variablesEnvio s).readingsToSend = true ∨
      (s.CO2 = 1800 ∧ s.temp ≤ 28 ∧ 18 ≤ s.temp ∧ s.hum ≤ 60 ∧ s.lum ≤ 3500 ∧ 2500 ≤ s.lum ∧
        60 ≤ s.valHumsuelo)) ∧
    Nodo.alertWorthy { enRango with CO2 := 1800 } = true ∧
    algunActuador (variablesEnvio { enRango with CO2 := 1800 }).readingsToSend = false := by
  have hact : algunActuador (variablesEnvio s).readingsToSend = true ↔
      (s.temp > 28 ∨ s.hum > 60 ∨ s.CO2 > 1800 ∨ s.temp < 18 ∨ s.lum > 3500 ∨ s.lum < 2500 ∨
        s.valHumsuelo < 60) := by
    rw [variablesEnvio_eq]
    simp only [algunActuador, reglas, Bool.or_eq_true, decide_eq_true_eq]
    tauto
  have hal : s.alertWorthy = true ↔
      (s.temp > 28 ∨ s.temp < 18 ∨ s.hum > 60 ∨ s.lum > 3500 ∨ s.lum < 2500 ∨
        s.CO2 ≥ 1800 ∨ s.valHumsuelo < 60) := by
    simp only [Nodo.alertWorthy, alertWorthy, decide_eq_true_eq]
  have hco : s.CO2 ≥ 1800 ↔ (s.CO2 > 1800 ∨ s.CO2 = 1800) := by
    constructor
    · intro h
      rcases lt_or_eq_of_le h with h1 | h1
      · exact Or.inl h1
      · exact Or.inr h1.symm
    · rintro (h | h)
      · exact le_of_lt h
      · exact le_of_eq h.symm
  have hiff : s.alertWorthy = true ↔
      (algunActuador (variablesEnvio s).readingsToSend = true ∨ s.CO2 = 1800) := by
    rw [hal, hact, hco]
    simp only [or_assoc, or_left_comm, or_comm]
  refine ⟨hact, hiff, by rw [generacionAlarma_cond_eq]; exact hiff,
    by rw [switchToWiFi_cond_eq]; exact hiff, ?_, ?_, ?_, ?_, ?_⟩
  · by_cases h : algunActuador (variablesEnvio s).readingsToSend = true
    · exact Or.inr (hiff.2 (Or.inl h))
    · exact Or.inl (by simpa using h)
  · by_cases h : s.alertWorthy = true
    · exact Or.inl h
    · right
      have hn : ¬ (s.temp > 28 ∨ s.temp < 18 ∨ s.hum > 60 ∨ s.lum > 3500 ∨ s.lum < 2500 ∨
          s.CO2 ≥ 1800 ∨ s.valHumsuelo < 60) := fun hc => h (hal.2 hc)
      simp only [not_or] at hn
      obtain ⟨n1, n2, n3, n4, n5, n6, n7⟩ := hn
      have n8 : ¬ s.CO2 > 1800 := fun hc => n6 (le_of_lt hc)
      rw [variablesEnvio_eq]
      simp only [reglas, n1, n2, n3, n4, n5, n7, n8, or_self, decide_False]
  · by_cases h : s.alertWorthy = true
    · rcases hiff.1 h with h1 | h1
      · exact Or.inr (Or.inl h1)
      · by_cases h2 : algunActuador (variablesEnvio s).readingsToSend = true
        · exact Or.inr (Or.inl h2)
        · right; right
          have hn := mt hact.2 h2
          simp only [not_or, not_lt] at hn
          obtain ⟨n1, n2, n3, n4, n5, n6, n7⟩ := hn
          exact ⟨h1, n1, n4, n2, n5, n6, n7⟩
    · exact Or.inl (by simpa using h)
  · simp [Nodo.alertWorthy, alertWorthy, enRango, inicial]
  · rw [variablesEnvio_eq]
    simp [algunActuador, reglas, enRango, inicial]
    norm_num

end Central

namespace Actuadores

/-- Outputs after one received frame. -/
theorem OnDataRecv_salidas (src : MAC) (m : struct_message) (s : Placa) :
    (OnDataRecv src m s).salidas = if src = macNucleoC then m.campos else s.salidas := by
  by_cases h : src = macNucleoC
  · have h2 : memcmp6_eq0 src macNucleoC = true := (memcmp6_eq0_iff _ _).2 h
    unfold OnDataRecv
    simp only [h2, if_true, if_pos h]
    rfl
  · have h2 : ¬ memcmp6_eq0 src macNucleoC = true := fun hc => h ((memcmp6_eq0_iff _ _).1 hc)
    unfold OnDataRecv
    simp only [h2, if_false, if_neg h]
    rfl

/-- Outputs after a sequence of frames: the last accepted command, if any. -/
theorem recibirTodos_salidas (frames : List (MAC × struct_message)) (s : Placa) :
    (recibirTodos frames s).salidas =
      match ultimoAceptado frames with
      | some m => m.campos
      | none => s.salidas := by
  induction frames using List.reverseRecOn with
  | nil => rfl
  | append_singleton l f ih =>
    have hr : recibirTodos (l ++ [f]) s = OnDataRecv f.1 f.2 (recibirTodos l s) := by
      simp [recibirTodos, List.foldl_append]
    rw [hr, OnDataRecv_salidas]
    by_cases h : f.1 = macNucleoC
    · have h2 : memcmp6_eq0 f.1 macNucleoC = true := (memcmp6_eq0_iff _ _).2 h
      rw [if_pos h]
      simp [ultimoAceptado, List.filter_append, h2]
    · have h2 : memcmp6_eq0 f.1 macNucleoC = false := by
        simpa using fun hc => h ((memcmp6_eq0_iff _ _).1 hc)
      rw [if_neg h, ih]
      simp [ultimoAceptado, List.filter_append, h2]

/-- C10. On the actuator node, for every prior state and every received frame, `OnDataRecv`
sets the five outputs to the five fields of the payload when the sender equals `macNucleoC`
(in all six bytes) and leaves the five outputs unchanged otherwise; after an accepted
command `m`, any sequence of frames from other senders leaves the outputs at `m`, and in
general the outputs after a sequence of frames are those of the last accepted command. -/
theorem C10_salidas_del_actuador (src : MAC) (m : struct_message) (s : Placa)
    (frames : List (MAC × struct_message)) :
    (src = macNucleoC ↔ src.bytes = macNucleoC.bytes) ∧
    (OnDataRecv src m s).salidas =
      (if src = macNucleoC then (m.eVentilador, m.eBomba, m.eLed, m.eAlarma, m.eCalor)
       else s.salidas) ∧
    (recibirTodos (frames.filter (fun f => !memcmp6_eq0 f.1 macNucleoC))
        (OnDataRecv macNucleoC m s)).salidas =
      (m.eVentilador, m.eBomba, m.eLed, m.eAlarma, m.eCalor) ∧
    (recibirTodos frames s).salidas =
      (match ultimoAceptado frames with
       | some c => (c.eVentilador, c.eBomba, c.eLed, c.eAlarma, c.eCalor)
       | none => s.salidas) := by
  refine ⟨?_, OnDataRecv_salidas src m s, ?_, recibirTodos_salidas frames s⟩
  · constructor
    · intro h; rw [h]
    · intro h
      cases src
      simp only [MAC.bytes, macNucleoC, List.cons.injEq, and_true] at h
      obtain ⟨h0, h1, h2, h3, h4, h5⟩ := h
      simp only [macNucleoC, h0, h1, h2, h3, h4, h5]
  · rw [recibirTodos_salidas]
    have hu : ultimoAceptado (frames.filter (fun f => !memcmp6_eq0 f.1 macNucleoC)) = none := by
      simp [ultimoAceptado, List.filter_filter]
    rw [hu, OnDataRecv_salidas, if_pos rfl]
    rfl

end Actuadores

end Invernadero
